import Mathlib

/-! kubefirst: readiness watcher, resource locator and remote exec session

A shallow embedding of `internal/k8s/exec.go`, of the `RunE` of `cmd/clean.go`,
of `detokenizeCivoGitops` in `internal/civo/detokenize.go` and of
`readVaultTokenFromSecret` in `internal/civo/terraform.go`.

* Time is counted in nanoseconds since the watch loop was entered.
* A watch channel is a finite list of events, each with the instant at which the
  sender offers it, followed either by silence or by the closing of the channel.
* A call ends in one of three ways: it returns a value, the process is terminated
  by `log.Fatal()` (zerolog calls `os.Exit(1)`, deferred calls do not run), or
  the goroutine panics.
-/

namespace Kubefirst

/-! ## Time -/

/-- Nanoseconds in `time.Second`. -/
def Second : Int := 1000000000

/-- Two's complement wrap-around of an integer into the `int64` range. -/
def wrapInt64 (x : Int) : Int := (x + 2 ^ 63) % 2 ^ 64 - 2 ^ 63

/-- The `time.Duration(timeoutSeconds) * time.Second` product, computed in `int64`. -/
def timeoutDuration (timeoutSeconds : Int) : Int := wrapInt64 (timeoutSeconds * Second)

/-- Instant at which `time.After(d)`, armed at `now`, delivers; a duration that is
zero or negative delivers at once. -/
def timerFires (now : Nat) (d : Int) : Nat := now + d.toNat

/-- Outcome of one `select` between the watch channel, which has something to
deliver at instant `ready`, and a timer of duration `d` armed at `now`. When both
are ready at the same instant Go picks either one; `tie` is that pick. -/
def channelWins (ready now : Nat) (d : Int) (tie : Bool) : Bool :=
  decide (ready < timerFires now d) || (decide (ready = timerFires now d) && tie)

/-! ## Kubernetes objects (the fields the code reads) -/

structure DeploymentStatus where
  Replicas : Int
  ReadyReplicas : Int
  deriving DecidableEq

structure Deployment where
  Name : String
  Namespace : String
  Status : DeploymentStatus
  deriving DecidableEq

structure StatefulSetStatus where
  Replicas : Int
  ReadyReplicas : Int
  CurrentReplicas : Int
  deriving DecidableEq

structure StatefulSet where
  Name : String
  Namespace : String
  Status : StatefulSetStatus
  deriving DecidableEq

structure PodStatus where
  Phase : String
  deriving DecidableEq

structure Pod where
  Name : String
  Namespace : String
  Status : PodStatus
  deriving DecidableEq

/-- The two selector fields of `metav1.ListOptions` that the code sets. -/
structure ListOptions where
  LabelSelector : String := ""
  FieldSelector : String := ""
  deriving DecidableEq

/-- A `watch.Event`: `Object` is the result of the type assertion to the expected
kind, `none` when the interface is nil or holds another kind (the assertion then
panics). -/
structure Event (α : Type) where
  Object : Option α
  deriving DecidableEq

/-- The channel returned by `ResultChan()`: the events with the instant at which
each is offered, and the instant at which the channel is closed, if it is. -/
structure WatchChan (α : Type) where
  events : List (Nat × Event α)
  closedAt : Option Nat

/-! ## Effects -/

inductive Level where
  | info
  | error
  | fatal
  deriving DecidableEq

structure LogLine where
  level : Level
  msg : String
  deriving DecidableEq

inductive Kind where
  | deployments
  | pods
  | statefulSets
  deriving DecidableEq

/-- A request sent to the API server. -/
inductive ApiCall where
  | watch (kind : Kind) (ns : String) (opts : ListOptions)
  | list (kind : Kind) (ns : String) (opts : ListOptions)
  deriving DecidableEq

/-- Whether a request is a list request. -/
def ApiCall.isList : ApiCall → Bool
  | .list _ _ _ => true
  | .watch _ _ _ => false

/-- How a call ends. -/
inductive Outcome (ρ : Type) where
  | returned (value : ρ)
  | exited
  | panicked
  deriving DecidableEq

/-- The clientset of one resource kind, as seen by the code. -/
structure Cluster (α : Type) where
  /-- The error of `GetClientSet(false, kubeConfigPath)`, if any. -/
  GetClientSet : String → Option String
  /-- The `Watch` request, by namespace and options. -/
  watch : String → ListOptions → Except String (WatchChan α)
  /-- The `List` request, by namespace and options: the `Items` of the result. -/
  list : String → ListOptions → Except String (List α)
  /-- The pick of the n-th `select` when both of its cases are ready. -/
  tie : Nat → Bool

/-- What a call did: how it ended, when, how many events it took from the
channel, the requests it sent and the lines it logged. -/
structure Run (ρ : Type) where
  outcome : Outcome ρ
  elapsed : Nat
  received : Nat
  calls : List ApiCall
  logs : List LogLine

/-- The end of a loop body that leaves the function. -/
structure Finish (ρ : Type) where
  outcome : Outcome ρ
  calls : List ApiCall
  logs : List LogLine

/-- What differs between the six watch loops. -/
structure LoopSpec (α ρ : Type) where
  /-- `time.Sleep(time.Second * 1)` after each receive. -/
  pace : Bool
  /-- The line logged when `ok` is false; at fatal level it ends the process. -/
  onClosed : LogLine
  /-- The tests on the received object: `some` leaves the function, `none` falls
  through to the next iteration. -/
  check : α → Option (Finish ρ)
  /-- The line logged and the value returned by the `time.After` case. -/
  timeoutLog : LogLine
  timeoutValue : ρ

/-- Nanoseconds spent in the pacing sleep. -/
def pause (pace : Bool) : Nat := if pace then 1000000000 else 0

/-- The `for { select { case event, ok := <-objChan: ... case <-time.After(d): ... } }`
loop. `now` is the instant at which the iteration starts, `n` the number of events
received so far. A new timer is armed in every iteration. -/
def watchLoop {α ρ : Type} (spec : LoopSpec α ρ) (d : Int) (tie : Nat → Bool)
    (closedAt : Option Nat) : List (Nat × Event α) → Nat → Nat → Run ρ
  | [], now, n =>
    match closedAt with
    | none => ⟨.returned spec.timeoutValue, timerFires now d, n, [], [spec.timeoutLog]⟩
    | some c =>
      if channelWins (max now c) now d (tie n) then
        if spec.onClosed.level = Level.fatal then
          ⟨.exited, max now c + pause spec.pace, n, [], [spec.onClosed]⟩
        else
          -- the zero Event has a nil Object: the type assertion panics
          ⟨.panicked, max now c + pause spec.pace, n, [], [spec.onClosed]⟩
      else ⟨.returned spec.timeoutValue, timerFires now d, n, [], [spec.timeoutLog]⟩
  | (a, ev) :: rest, now, n =>
    if channelWins (max now a) now d (tie n) then
      match ev.Object with
      | none => ⟨.panicked, max now a + pause spec.pace, n + 1, [], []⟩
      | some obj =>
        match spec.check obj with
        | some fin => ⟨fin.outcome, max now a + pause spec.pace, n + 1, fin.calls, fin.logs⟩
        | none => watchLoop spec d tie closedAt rest (max now a + pause spec.pace) (n + 1)
    else ⟨.returned spec.timeoutValue, timerFires now d, n, [], [spec.timeoutLog]⟩

/-- Put the requests and log lines of the function's preamble before those of the loop. -/
def Run.after {ρ : Type} (calls : List ApiCall) (logs : List LogLine) (r : Run ρ) : Run ρ :=
  { r with calls := calls ++ r.calls, logs := logs ++ r.logs }

/-! ## Readiness watcher -/

/-- `WaitForDeploymentReady(kubeConfigPath, deployment, timeoutSeconds)`; the
returned pair is `(bool, error)`. -/
def WaitForDeploymentReady (c : Cluster Deployment) (kubeConfigPath : String)
    (deployment : Deployment) (timeoutSeconds : Int) : Run (Bool × Option String) :=
  match c.GetClientSet kubeConfigPath with
  | some err => ⟨.returned (false, some err), 0, 0, [], []⟩
  | none =>
    let configuredReplicas := deployment.Status.Replicas
    let watchOptions : ListOptions := { FieldSelector := "metadata.name=" ++ deployment.Name }
    match c.watch deployment.Namespace watchOptions with
    | .error err =>
      ⟨.exited, 0, 0, [.watch .deployments deployment.Namespace watchOptions],
        [⟨.fatal, "Error when attempting to wait for Deployment: " ++ err⟩]⟩
    | .ok objChan =>
      Run.after [.watch .deployments deployment.Namespace watchOptions]
        [⟨.info, "Waiting for " ++ deployment.Name ++
          " Deployment to be ready. This could take up to " ++ toString timeoutSeconds ++
          " seconds."⟩]
        (watchLoop
          { pace := true
            onClosed := ⟨.fatal, "Error waiting for Deployment: %!s(<nil>)"⟩
            check := fun obj =>
              if obj.Status.ReadyReplicas = configuredReplicas then
                some ⟨.returned (true, none), [],
                  [⟨.info, "All Pods in Deployment " ++ deployment.Name ++ " are ready."⟩]⟩
              else none
            timeoutLog := ⟨.error, "The Deployment was not ready within the timeout period."⟩
            timeoutValue := (false, some "The Deployment was not ready within the timeout period.") }
          (timeoutDuration timeoutSeconds) c.tie objChan.closedAt objChan.events 0 0)

/-- `WaitForPodReady(kubeConfigPath, pod, timeoutSeconds)`. The loop has no pacing
sleep, and a closed channel is logged at error level only, after which the phase
of the zero event is read. -/
def WaitForPodReady (c : Cluster Pod) (kubeConfigPath : String)
    (pod : Pod) (timeoutSeconds : Int) : Run (Bool × Option String) :=
  match c.GetClientSet kubeConfigPath with
  | some err => ⟨.returned (false, some err), 0, 0, [], []⟩
  | none =>
    let watchOptions : ListOptions := { FieldSelector := "metadata.name=" ++ pod.Name }
    match c.watch pod.Namespace watchOptions with
    | .error err =>
      ⟨.exited, 0, 0, [.watch .pods pod.Namespace watchOptions],
        [⟨.fatal, "Error when attempting to wait for Pod: " ++ err⟩]⟩
    | .ok objChan =>
      Run.after [.watch .pods pod.Namespace watchOptions]
        [⟨.info, "Waiting for " ++ pod.Name ++
          " Pod to be ready. This could take up to " ++ toString timeoutSeconds ++
          " seconds."⟩]
        (watchLoop
          { pace := false
            onClosed := ⟨.error, "fail"⟩
            check := fun obj =>
              if obj.Status.Phase = "Running" then
                some ⟨.returned (true, none), [],
                  [⟨.info, "Pod " ++ pod.Name ++ " is " ++ obj.Status.Phase ++ "."⟩]⟩
              else none
            timeoutLog :=
              ⟨.error, "The operation timed out while waiting for the Pod to become ready."⟩
            timeoutValue :=
              (false, some "The operation timed out while waiting for the Pod to become ready.") }
          (timeoutDuration timeoutSeconds) c.tie objChan.closedAt objChan.events 0 0)

/-- `WaitForStatefulSetReady(kubeConfigPath, statefulset, timeoutSeconds, ignoreReady)`. -/
def WaitForStatefulSetReady (c : Cluster StatefulSet) (kubeConfigPath : String)
    (statefulset : StatefulSet) (timeoutSeconds : Int) (ignoreReady : Bool) :
    Run (Bool × Option String) :=
  match c.GetClientSet kubeConfigPath with
  | some err => ⟨.returned (false, some err), 0, 0, [], []⟩
  | none =>
    let configuredReplicas := statefulset.Status.Replicas
    let watchOptions : ListOptions := { FieldSelector := "metadata.name=" ++ statefulset.Name }
    match c.watch statefulset.Namespace watchOptions with
    | .error err =>
      ⟨.exited, 0, 0, [.watch .statefulSets statefulset.Namespace watchOptions],
        [⟨.fatal, "Error when attempting to wait for StatefulSet: " ++ err⟩]⟩
    | .ok objChan =>
      Run.after [.watch .statefulSets statefulset.Namespace watchOptions]
        [⟨.info, "Waiting for " ++ statefulset.Name ++
          " StatefulSet to be ready. This could take up to " ++ toString timeoutSeconds ++
          " seconds."⟩]
        (watchLoop
          { pace := true
            onClosed := ⟨.fatal, "Error waiting for StatefulSet: %!s(<nil>)"⟩
            check := fun obj =>
              if ignoreReady then
                if obj.Status.CurrentReplicas = configuredReplicas then
                  some ⟨.returned (true, none), [],
                    [⟨.info, "All Pods in StatefulSet " ++ statefulset.Name ++
                      " have been created."⟩]⟩
                else none
              else
                if obj.Status.ReadyReplicas = configuredReplicas then
                  some ⟨.returned (true, none), [],
                    [⟨.info, "All Pods in StatefulSet " ++ statefulset.Name ++ " are ready."⟩]⟩
                else none
            timeoutLog := ⟨.error, "The StatefulSet was not ready within the timeout period."⟩
            timeoutValue :=
              (false, some "The StatefulSet was not ready within the timeout period.") }
          (timeoutDuration timeoutSeconds) c.tie objChan.closedAt objChan.events 0 0)

/-! ## Resource locator

The `timeoutSeconds` argument of the three locators is a `float64`; the code first
converts it with `time.Duration(timeoutSeconds)`. The embedding takes the `int64`
result of that conversion as its argument. -/

/-- The list request made after a satisfying event, and `&spec.Items[0]`: an error
of the request goes to `log.Fatal()`, an empty `Items` makes the index panic. The
returned pair is `(*Object, error)`. -/
def listFirst {α : Type} (c : Cluster α) (kind : Kind) (ns : String) (opts : ListOptions)
    (fatalMsg : String) : Finish (Option α × Option String) :=
  match c.list ns opts with
  | .error err => ⟨.exited, [.list kind ns opts], [⟨.fatal, fatalMsg ++ err⟩]⟩
  | .ok [] => ⟨.panicked, [.list kind ns opts], []⟩
  | .ok (item :: _) => ⟨.returned (some item, none), [.list kind ns opts], []⟩

/-- `ReturnDeploymentObject(kubeConfigPath, matchLabel, matchLabelValue, namespace, timeoutSeconds)`. -/
def ReturnDeploymentObject (c : Cluster Deployment) (kubeConfigPath matchLabel
    matchLabelValue ns : String) (timeoutSeconds : Int) :
    Run (Option Deployment × Option String) :=
  match c.GetClientSet kubeConfigPath with
  | some err => ⟨.returned (none, some err), 0, 0, [], []⟩
  | none =>
    let deploymentListOptions : ListOptions :=
      { LabelSelector := matchLabel ++ "=" ++ matchLabelValue }
    match c.watch ns deploymentListOptions with
    | .error err =>
      ⟨.exited, 0, 0, [.watch .deployments ns deploymentListOptions],
        [⟨.fatal, "Error when attempting to search for Deployment: " ++ err⟩]⟩
    | .ok objChan =>
      Run.after [.watch .deployments ns deploymentListOptions]
        [⟨.info, "Waiting for " ++ matchLabelValue ++ " Deployment to be created."⟩]
        (watchLoop
          { pace := true
            onClosed := ⟨.fatal, "Error waiting for " ++ matchLabelValue ++
              " Deployment to be created: %!s(<nil>)"⟩
            check := fun obj =>
              if obj.Status.Replicas > (0 : Int) then
                some (listFirst c .deployments ns deploymentListOptions
                  "Error when searching for Deployment: ")
              else none
            timeoutLog := ⟨.error, "The Deployment was not created within the timeout period."⟩
            timeoutValue :=
              (none, some "The Deployment was not created within the timeout period.") }
          (timeoutDuration timeoutSeconds) c.tie objChan.closedAt objChan.events 0 0)

/-- `ReturnPodObject(kubeConfigPath, matchLabel, matchLabelValue, namespace, timeoutSeconds)`. -/
def ReturnPodObject (c : Cluster Pod) (kubeConfigPath matchLabel
    matchLabelValue ns : String) (timeoutSeconds : Int) :
    Run (Option Pod × Option String) :=
  match c.GetClientSet kubeConfigPath with
  | some err => ⟨.returned (none, some err), 0, 0, [], []⟩
  | none =>
    let podListOptions : ListOptions :=
      { LabelSelector := matchLabel ++ "=" ++ matchLabelValue }
    match c.watch ns podListOptions with
    | .error err =>
      ⟨.exited, 0, 0, [.watch .pods ns podListOptions],
        [⟨.fatal, "Error when attempting to search for Pod: " ++ err⟩]⟩
    | .ok objChan =>
      Run.after [.watch .pods ns podListOptions]
        [⟨.info, "Waiting for " ++ matchLabelValue ++ " Pod to be created."⟩]
        (watchLoop
          { pace := true
            onClosed := ⟨.fatal, "Error waiting for " ++ matchLabelValue ++
              " Pod to be created: %!s(<nil>)"⟩
            check := fun obj =>
              if obj.Status.Phase = "Pending" then
                some (listFirst c .pods ns podListOptions "Error when searching for Pod: ")
              else if obj.Status.Phase = "Running" then
                some (listFirst c .pods ns podListOptions "Error when searching for Pod: ")
              else none
            timeoutLog := ⟨.error, "The Pod was not created within the timeout period."⟩
            timeoutValue := (none, some "The Pod was not created within the timeout period.") }
          (timeoutDuration timeoutSeconds) c.tie objChan.closedAt objChan.events 0 0)

/-- `ReturnStatefulSetObject(kubeConfigPath, matchLabel, matchLabelValue, namespace, timeoutSeconds)`. -/
def ReturnStatefulSetObject (c : Cluster StatefulSet) (kubeConfigPath matchLabel
    matchLabelValue ns : String) (timeoutSeconds : Int) :
    Run (Option StatefulSet × Option String) :=
  match c.GetClientSet kubeConfigPath with
  | some err => ⟨.returned (none, some err), 0, 0, [], []⟩
  | none =>
    let statefulSetListOptions : ListOptions :=
      { LabelSelector := matchLabel ++ "=" ++ matchLabelValue }
    match c.watch ns statefulSetListOptions with
    | .error err =>
      ⟨.exited, 0, 0, [.watch .statefulSets ns statefulSetListOptions],
        [⟨.fatal, "Error when attempting to search for StatefulSet: " ++ err⟩]⟩
    | .ok objChan =>
      Run.after [.watch .statefulSets ns statefulSetListOptions]
        [⟨.info, "Waiting for " ++ matchLabelValue ++ " StatefulSet to be created."⟩]
        (watchLoop
          { pace := true
            onClosed := ⟨.fatal, "Error waiting for " ++ matchLabelValue ++
              " StatefulSet to be created: %!s(<nil>)"⟩
            check := fun obj =>
              if obj.Status.Replicas > (0 : Int) then
                some (listFirst c .statefulSets ns statefulSetListOptions
                  "Error when searching for StatefulSet: ")
              else none
            timeoutLog := ⟨.error, "The StatefulSet was not created within the timeout period."⟩
            timeoutValue :=
              (none, some "The StatefulSet was not created within the timeout period.") }
          (timeoutDuration timeoutSeconds) c.tie objChan.closedAt objChan.events 0 0)

/-! ## Remote exec session -/

/-- The fields of `PodSessionOptions` (declared elsewhere in the package) that
`PodExecSession` and `podExec` read. -/
structure PodSessionOptions where
  Command : List String
  Namespace : String
  PodName : String
  Stdin : Bool
  Stdout : Bool
  Stderr : Bool
  TtyEnabled : Bool
  deriving DecidableEq

/-- The fields of `v1.PodExecOptions` that `PodExecSession` sets. -/
structure PodExecOptions where
  Stdin : Bool
  Stdout : Bool
  Stderr : Bool
  TTY : Bool
  Command : List String
  deriving DecidableEq

/-- The local ends a remote stream can be connected to. -/
inductive LocalStream where
  | osStdin
  | osStdout
  | osStderr
  | discard
  deriving DecidableEq

/-- The `remotecommand.StreamOptions` handed to `exec.Stream`. -/
structure StreamOptions where
  Stdin : LocalStream
  Stdout : LocalStream
  Stderr : LocalStream
  Tty : Bool
  deriving DecidableEq

/-- The mode of the local terminal (file descriptor 0). -/
inductive TermMode where
  | cooked
  | raw
  deriving DecidableEq

/-- The collaborators of `podExec`; each function gives the error of the
operation, if any. -/
structure ExecEnv where
  GetClientSet : String → Option String
  GetClientConfig : String → Option String
  /-- The `NewSPDYExecutor` negotiation for the exec request on pod name, namespace and options. -/
  NewSPDYExecutor : String → String → PodExecOptions → Option String
  /-- The `terminal.MakeRaw(0)` switch. -/
  MakeRaw : Option String
  /-- The `exec.Stream` run. -/
  Stream : StreamOptions → Option String

/-- What a `podExec` call did: how it ended, the terminal mode it left behind, how
often the terminal was switched and restored, the options it streamed with and
the lines it logged. -/
structure ExecRun where
  outcome : Outcome (Option String)
  terminal : TermMode
  makeRawCalls : Nat
  restoreCalls : Nat
  streamed : Option StreamOptions
  logs : List LogLine

/-- `podExec(kubeConfigPath, ps, pe, silent)` started with the terminal in mode
`term`. `terminal.Restore` is deferred: it runs when the function returns, and
does not run when `log.Fatal()` ends the process. -/
def podExec (env : ExecEnv) (term : TermMode) (kubeConfigPath : String)
    (ps : PodSessionOptions) (pe : PodExecOptions) (silent : Bool) : ExecRun :=
  match env.GetClientSet kubeConfigPath with
  | some err => ⟨.returned (some err), term, 0, 0, none, []⟩
  | none =>
    match env.GetClientConfig kubeConfigPath with
    | some err => ⟨.returned (some err), term, 0, 0, none, []⟩
    | none =>
      match env.NewSPDYExecutor ps.PodName ps.Namespace pe with
      | some err =>
        ⟨.exited, term, 0, 0, none, [⟨.fatal, "Error executing command on Pod: " ++ err⟩]⟩
      | none =>
        match env.MakeRaw with
        | some err =>
          ⟨.exited, term, 1, 0, none,
            [⟨.fatal, "Error when attempting to start terminal: " ++ err⟩]⟩
        | none =>
          let oldState := term
          let showOutput := if silent then LocalStream.discard else LocalStream.osStdout
          let opts : StreamOptions :=
            { Stdin := .osStdin, Stdout := showOutput, Stderr := .osStderr, Tty := ps.TtyEnabled }
          match env.Stream opts with
          | some err =>
            ⟨.exited, .raw, 1, 0, some opts,
              [⟨.fatal, "Error running command on Pod: " ++ err⟩]⟩
          | none => ⟨.returned none, oldState, 1, 1, some opts, []⟩

/-- `PodExecSession(kubeConfigPath, p, silent)`. -/
def PodExecSession (env : ExecEnv) (term : TermMode) (kubeConfigPath : String)
    (p : PodSessionOptions) (silent : Bool) : ExecRun :=
  let podExecOptions : PodExecOptions :=
    { Stdin := p.Stdin, Stdout := p.Stdout, Stderr := p.Stderr, TTY := p.TtyEnabled,
      Command := p.Command }
  -- `if err != nil { return err }; return nil` hands the result on unchanged
  podExec env term kubeConfigPath p podExecOptions silent

/-! ## Concrete inputs -/

/-- A cluster whose client is built without error, whose watch yields the given
channel and whose list yields the given items. -/
def clusterOf {α : Type} (chan : WatchChan α) (items : List α) : Cluster α :=
  { GetClientSet := fun _ => none
    watch := fun _ _ => .ok chan
    list := fun _ _ => .ok items
    tie := fun _ => false }

/-- A Deployment named `argocd-server` with the given status. -/
def deploymentWith (replicas ready : Int) : Deployment :=
  { Name := "argocd-server", Namespace := "argocd",
    Status := { Replicas := replicas, ReadyReplicas := ready } }

/-- A StatefulSet named `vault` with the given status. -/
def statefulSetWith (replicas ready current : Int) : StatefulSet :=
  { Name := "vault", Namespace := "vault",
    Status := { Replicas := replicas, ReadyReplicas := ready, CurrentReplicas := current } }

/-- A Pod named `vault-0` in the given phase. -/
def podIn (phase : String) : Pod :=
  { Name := "vault-0", Namespace := "vault", Status := { Phase := phase } }

/-- Collaborators of `podExec` with client and config built, and the given errors
of the stream negotiation, the raw-mode switch and the streaming. -/
def execEnvOf (negotiation rawMode streaming : Option String) : ExecEnv :=
  { GetClientSet := fun _ => none
    GetClientConfig := fun _ => none
    NewSPDYExecutor := fun _ _ _ => negotiation
    MakeRaw := rawMode
    Stream := fun _ => streaming }

/-- A session that runs `vault operator init` in the Pod `vault-0`. -/
def sessionOf (tty : Bool) : PodSessionOptions :=
  { Command := ["vault", "operator", "init"], Namespace := "vault", PodName := "vault-0",
    Stdin := true, Stdout := true, Stderr := true, TtyEnabled := tty }

/-- Events that carry objects of the expected kind, with their arrival instants. -/
def eventsOf {α : Type} (xs : List (Nat × α)) : List (Nat × Event α) :=
  xs.map fun p => (p.1, ⟨some p.2⟩)

/-- A cluster whose client cannot be built. -/
def clusterWithoutClient {α : Type} (err : String) : Cluster α :=
  { GetClientSet := fun _ => some err
    watch := fun _ _ => .ok ⟨[], none⟩
    list := fun _ _ => .ok []
    tie := fun _ => false }

/-- Collaborators of `podExec` with the given errors of the client and of the REST
config, everything after them succeeding. -/
def execEnvWithout (client config : Option String) : ExecEnv :=
  { GetClientSet := fun _ => client
    GetClientConfig := fun _ => config
    NewSPDYExecutor := fun _ _ _ => none
    MakeRaw := none
    Stream := fun _ => none }

/-! ## Text search -/

/-- Whether the first list starts with the second one. -/
def beginsWith {α : Type} [DecidableEq α] : List α → List α → Bool
  | _, [] => true
  | [], _ :: _ => false
  | c :: cs, p :: ps => decide (c = p) && beginsWith cs ps

/-- Whether `pat` occurs somewhere in the list. -/
def occursIn {α : Type} [DecidableEq α] (pat : List α) : List α → Bool
  | [] => beginsWith [] pat
  | c :: cs => beginsWith (c :: cs) pat || occursIn pat cs

/-! ## Secrets -/

/-- A Go string, as its bytes. -/
structure GoString where
  bytes : List Nat
  deriving DecidableEq

/-- The conversion `string(value)` of a byte slice. -/
def GoString.ofBytes (value : List Nat) : GoString := ⟨value⟩

/-- The empty string. -/
def GoString.empty : GoString := ⟨[]⟩

/-- The assignment `m[key] = value` on a Go map held as its entries. -/
def mapSet {β : Type} (m : List (String × β)) (key : String) (value : β) : List (String × β) :=
  (key, value) :: m.filter fun e => !(e.1 == key)

/-- A `v1.Secret`: the entries of its `Data` map, with distinct keys (none for
a nil map). -/
structure Secret where
  Data : List (String × List Nat)

/-- The collaborators of `ReadSecretV2`. -/
structure SecretEnv where
  /-- The error of `GetClientSet(false, kubeConfigPath)`, if any. -/
  GetClientSet : String → Option String
  /-- The `Secrets(namespace).Get` request, by namespace and secret name. -/
  getSecret : String → String → Except String Secret

/-- The result `(map[string]string, error)` of `ReadSecretV2` and the lines it
logged; `data` is `none` for a nil map. -/
structure SecretRead where
  data : Option (List (String × GoString))
  err : Option String
  logs : List LogLine

/-- `ReadSecretV2(kubeConfigPath, namespace, secretName)`. -/
def ReadSecretV2 (env : SecretEnv) (kubeConfigPath ns secretName : String) : SecretRead :=
  match env.GetClientSet kubeConfigPath with
  | some err => ⟨some [], some err, []⟩
  | none =>
    match env.getSecret ns secretName with
    | .error err => ⟨some [], none, [⟨.error, "Error getting secret: " ++ err ++ "\n"⟩]⟩
    | .ok secret =>
      let parsedSecretData := secret.Data.foldl
        (fun parsed kv => mapSet parsed kv.1 (GoString.ofBytes kv.2)) []
      ⟨some parsedSecretData, none, []⟩

/-- `readVaultTokenFromSecret(config)` of the civo package: `kubeconfig` is
`config.Kubeconfig`, and the constants `vault.VaultNamespace` and
`vault.VaultSecretName`, declared in another package, are arguments. A key that
is missing from a Go map reads as the empty string. The line logged on failure is
not recorded. -/
def readVaultTokenFromSecret (env : SecretEnv) (kubeconfig VaultNamespace
    VaultSecretName : String) : GoString :=
  let r := ReadSecretV2 env kubeconfig VaultNamespace VaultSecretName
  match r.err, r.data with
  | some _, _ => GoString.empty
  | none, none => GoString.empty
  | none, some existingKubernetesSecret =>
    (existingKubernetesSecret.lookup "root-token").getD GoString.empty

/-- A cluster that holds the given secret under every name. -/
def secretEnvOf (client : Option String) (secret : Except String Secret) : SecretEnv :=
  { GetClientSet := fun _ => client, getSecret := fun _ _ => secret }

/-! ## The clean command

The four flags are declared as booleans in `init`, so that the `GetBool` reads do
not fail. The body of `RunE` is straight-line code whose branches depend on the
flags only: it is held as the list of its steps, run in order until one that
returns its error fails. Log lines are not recorded. -/

/-- The fields of `configs.ReadConfig()` that the command reads. -/
structure CleanConfig where
  GitOpsRepoPath : String
  ArgoCDInitValuesYamlPath : String
  K1FolderPath : String
  KubefirstConfigFilePath : String

/-- The flags of the clean command. -/
structure CleanFlags where
  rmLogs : Bool
  destroyBuckets : Bool
  destroyConfirm : Bool
  preserveTools : Bool
  deriving DecidableEq

/-- A call that acts on the cloud account, the file system or the terminal. -/
inductive CleanStep where
  | destroyBucketsInUse (dryRun executeConfirmation : Bool)
  | removeAll (path : String)
  | remove (path : String)
  | mkdir (path : String)
  | create (path : String)
  | close (path : String)
  | printSummary (rmLogsFolder : Bool)
  deriving DecidableEq

/-- The error value returned by `RunE`: an error handed on or made by
`errors.New`, or a `fmt.Errorf` with its format and arguments, not rendered. -/
inductive CleanError where
  | plain (msg : String)
  | errorf (format : String) (args : List String)
  deriving DecidableEq

/-- A step and what becomes of its error: `some` makes the value that `RunE`
returns, `none` stands for an error that is only logged or dropped. -/
structure CleanAction where
  step : CleanStep
  onError : Option (String → CleanError)

/-- The surroundings of the command: the configuration, `viper`'s `logs-location`
and, for each step, the error with which it fails after the steps run before it. -/
structure CleanEnv where
  config : CleanConfig
  logsLocation : String
  step : List CleanStep → CleanStep → Option String

/-- Run the steps in order; `trace` holds the steps run so far. -/
def runActions (env : CleanEnv) : List CleanAction → List CleanStep →
    Option CleanError × List CleanStep
  | [], trace => (none, trace)
  | a :: rest, trace =>
    match env.step trace a.step, a.onError with
    | some err, some mk => (some (mk err), trace ++ [a.step])
    | _, _ => runActions env rest (trace ++ [a.step])

/-- The steps of `RunE` from the call of `aws.DestroyBucketsInUse` on (lines 42 to 146). -/
def cleanActions (config : CleanConfig) (logsLocation : String) (flags : CleanFlags) :
    List CleanAction :=
  [⟨.destroyBucketsInUse false (flags.destroyBuckets && flags.destroyConfirm), some .plain⟩]
  ++ (if flags.rmLogs then
        [⟨.removeAll logsLocation,
          some fun err => .errorf "unable to delete %q file, error is: " [err]⟩]
      else [])
  ++ (if flags.preserveTools then
        [⟨.removeAll config.GitOpsRepoPath,
            some fun err => .errorf "unable to delete %q folder, error is: %s"
              [config.GitOpsRepoPath, err]⟩,
          ⟨.remove config.ArgoCDInitValuesYamlPath,
            some fun err => .errorf "unable to delete %q file, error is: " [err]⟩,
          ⟨.removeAll (config.K1FolderPath ++ "/ssl"), none⟩,
          ⟨.removeAll (config.K1FolderPath ++ "/" ++ "metaphor"), none⟩,
          ⟨.removeAll (config.K1FolderPath ++ "/" ++ "metaphor-frontend"), none⟩,
          ⟨.removeAll (config.K1FolderPath ++ "/" ++ "metaphor-go"), none⟩]
      else
        [⟨.removeAll config.K1FolderPath,
            some fun err => .errorf "unable to delete %q folder, error is: %s"
              [config.K1FolderPath, err]⟩,
          ⟨.mkdir config.K1FolderPath,
            some fun err => .errorf
              "error: could not create directory %q - it must exist to continue. error is: %s"
              [config.K1FolderPath, err]⟩])
  ++ [⟨.remove config.KubefirstConfigFilePath,
        some fun err => .errorf "unable to delete %q file, error is: " [err]⟩,
      ⟨.create config.KubefirstConfigFilePath,
        some fun err => .errorf "error: could not create `$HOME/.kubefirst` file: %v" [err]⟩,
      ⟨.close config.KubefirstConfigFilePath, some .plain⟩,
      ⟨.printSummary flags.rmLogs, none⟩]

/-- The `RunE` of `cleanCmd`: the error it returns and the steps it ran. -/
def cleanRunE (env : CleanEnv) (flags : CleanFlags) : Option CleanError × List CleanStep :=
  let destroyBuckets := flags.destroyBuckets
  let destroyConfirm := flags.destroyConfirm
  if destroyBuckets && !destroyConfirm then
    (some (.plain ("this process will fully delete cloud buckets, and we would like you to " ++
      "confirm the deletion providing the --destroy-confirm when calling the clean command")),
      [])
  else runActions env (cleanActions env.config env.logsLocation flags) []

/-- Surroundings in which every step succeeds. -/
def cleanEnvOf (config : CleanConfig) : CleanEnv :=
  { config := config, logsLocation := "/home/user/.k1/logs", step := fun _ _ => none }

/-- The default layout under the home directory. -/
def homeConfig : CleanConfig :=
  { GitOpsRepoPath := "/home/user/.k1/gitops"
    ArgoCDInitValuesYamlPath := "/home/user/.k1/argocd-init-values.yaml"
    K1FolderPath := "/home/user/.k1"
    KubefirstConfigFilePath := "/home/user/.kubefirst" }

/-! ## Token substitution

Go strings are byte sequences and `strings.Replace` works on them; the
placeholders are ASCII, and the embedding holds file contents and values as
sequences of characters. -/

/-- The scan of `strings.Replace(s, old, new, -1)` for a non-empty `old`, from
left to right without overlap; `skip` counts the elements still to pass over of a
match that has been replaced. -/
def replaceFrom {α : Type} [DecidableEq α] (old new : List α) : Nat → List α → List α
  | _, [] => []
  | skip + 1, _ :: cs => replaceFrom old new skip cs
  | 0, c :: cs =>
    if beginsWith (c :: cs) old then new ++ replaceFrom old new (old.length - 1) cs
    else c :: replaceFrom old new 0 cs

/-- The value of `strings.Replace(s, old, new, -1)`; an empty `old` matches before
every element and at the end. -/
def replaceAll {α : Type} [DecidableEq α] (old new s : List α) : List α :=
  match old with
  | [] => new ++ (s.map fun c => c :: new).flatten
  | _ :: _ => replaceFrom old new 0 s

/-- The fields of `GitOpsDirectoryValues` (declared elsewhere in the package) that
`detokenizeCivoGitops` reads. -/
structure GitOpsDirectoryValues where
  AlertsEmail : String
  AtlantisAllowList : String
  ClusterName : String
  CloudProvider : String
  CloudRegion : String
  ClusterId : String
  ClusterType : String
  DomainName : String
  KubeconfigPath : String
  KubefirstStateStoreBucket : String
  KubefirstTeam : String
  KubefirstVersion : String
  ArgoCDIngressURL : String
  ArgoCDIngressNoHTTPSURL : String
  ArgoWorkflowsIngressURL : String
  ArgoWorkflowsIngressNoHTTPSURL : String
  AtlantisIngressURL : String
  AtlantisIngressNoHTTPSURL : String
  ChartMuseumIngressURL : String
  VaultIngressURL : String
  VaultIngressNoHTTPSURL : String
  VouchIngressURL : String
  GitDescription : String
  GitNamespace : String
  GitProvider : String
  GitRunner : String
  GitRunnerDescription : String
  GitRunnerNS : String
  GitURL : String
  GitHubHost : String
  GitHubOwner : String
  GitHubUser : String
  GitOpsRepoAtlantisWebhookURL : String
  GitOpsRepoGitURL : String
  GitOpsRepoNoHTTPSURL : String
  UseTelemetry : String

/-- All the values of the tokens. -/
def GitOpsDirectoryValues.values (tokens : GitOpsDirectoryValues) : List String :=
  [tokens.AlertsEmail, tokens.AtlantisAllowList, tokens.ClusterName,
   tokens.CloudProvider, tokens.CloudRegion, tokens.ClusterId,
   tokens.ClusterType, tokens.DomainName, tokens.KubeconfigPath,
   tokens.KubefirstStateStoreBucket, tokens.KubefirstTeam, tokens.KubefirstVersion,
   tokens.ArgoCDIngressURL, tokens.ArgoCDIngressNoHTTPSURL, tokens.ArgoWorkflowsIngressURL,
   tokens.ArgoWorkflowsIngressNoHTTPSURL, tokens.AtlantisIngressURL, tokens.AtlantisIngressNoHTTPSURL,
   tokens.ChartMuseumIngressURL, tokens.VaultIngressURL, tokens.VaultIngressNoHTTPSURL,
   tokens.VouchIngressURL, tokens.GitDescription, tokens.GitNamespace,
   tokens.GitProvider, tokens.GitRunner, tokens.GitRunnerDescription,
   tokens.GitRunnerNS, tokens.GitURL, tokens.GitHubHost,
   tokens.GitHubOwner, tokens.GitHubUser, tokens.GitOpsRepoAtlantisWebhookURL,
   tokens.GitOpsRepoGitURL, tokens.GitOpsRepoNoHTTPSURL, tokens.UseTelemetry]

/-- The replacements of `detokenizeCivoGitops`, in the order of lines 44 to 89:
placeholder and value. -/
def gitopsReplacements (tokens : GitOpsDirectoryValues) : List (String × String) :=
  let metaphorDevelopmentIngressURL := "https://metaphor-development." ++ tokens.DomainName
  let metaphorStagingIngressURL := "https://metaphor-staging." ++ tokens.DomainName
  let metaphorProductionIngressURL := "https://metaphor-production." ++ tokens.DomainName
  [("<ADMIN_EMAIL_ADDRESS>", tokens.AlertsEmail),
   ("<ATLANTIS_ALLOW_LIST>", tokens.AtlantisAllowList),
   ("<CLUSTER_NAME>", tokens.ClusterName),
   ("<CLOUD_PROVIDER>", tokens.CloudProvider),
   ("<CLOUD_REGION>", tokens.CloudRegion),
   ("<CLUSTER_NAME>", tokens.ClusterName),
   ("<CLUSTER_ID>", tokens.ClusterId),
   ("<CLUSTER_TYPE>", tokens.ClusterType),
   ("<DOMAIN_NAME>", tokens.DomainName),
   ("<KUBE_CONFIG_PATH>", tokens.KubeconfigPath),
   ("<KUBEFIRST_STATE_STORE_BUCKET>", tokens.KubefirstStateStoreBucket),
   ("<KUBEFIRST_TEAM>", tokens.KubefirstTeam),
   ("<KUBEFIRST_VERSION>", tokens.KubefirstVersion),
   ("<ARGO_CD_INGRESS_URL>", tokens.ArgoCDIngressURL),
   ("<ARGOCD_INGRESS_NO_HTTP_URL>", tokens.ArgoCDIngressNoHTTPSURL),
   ("<ARGO_WORKFLOWS_INGRESS_URL>", tokens.ArgoWorkflowsIngressURL),
   ("<ARGO_WORKFLOWS_INGRESS_NO_HTTPS_URL>", tokens.ArgoWorkflowsIngressNoHTTPSURL),
   ("<ATLANTIS_INGRESS_URL>", tokens.AtlantisIngressURL),
   ("<ATLANTIS_INGRESS_NO_HTTPS_URL>", tokens.AtlantisIngressNoHTTPSURL),
   ("<CHARTMUSEUM_INGRESS_URL>", tokens.ChartMuseumIngressURL),
   ("<VAULT_INGRESS_URL>", tokens.VaultIngressURL),
   ("<VAULT_INGRESS_NO_HTTPS_URL>", tokens.VaultIngressNoHTTPSURL),
   ("<VOUCH_INGRESS_URL>", tokens.VouchIngressURL),
   ("<GIT_DESCRIPTION>", tokens.GitDescription),
   ("<GIT_NAMESPACE>", tokens.GitNamespace),
   ("<GIT_PROVIDER>", tokens.GitProvider),
   ("<GIT_RUNNER>", tokens.GitRunner),
   ("<GIT_RUNNER_DESCRIPTION>", tokens.GitRunnerDescription),
   ("<GIT_RUNNER_NS>", tokens.GitRunnerNS),
   ("<GIT_URL>", tokens.GitURL),
   ("<GITHUB_HOST>", tokens.GitHubHost),
   ("<GITHUB_OWNER>", tokens.GitHubOwner),
   ("<GITHUB_USER>", tokens.GitHubUser),
   ("<GITOPS_REPO_ATLANTIS_WEBHOOK_URL>", tokens.GitOpsRepoAtlantisWebhookURL),
   ("<GITOPS_REPO_GIT_URL>", tokens.GitOpsRepoGitURL),
   ("<GITOPS_REPO_NO_HTTPS_URL>", tokens.GitOpsRepoNoHTTPSURL),
   ("<METAPHOR_DEVELOPMENT_INGRESS_URL>", metaphorDevelopmentIngressURL),
   ("<METAPHOR_PRODUCTION_INGRESS_URL>", metaphorProductionIngressURL),
   ("<METAPHOR_STAGING_INGRESS_URL>", metaphorStagingIngressURL),
   ("<USE_TELEMETRY>", tokens.UseTelemetry)]

/-- The chain of assignments `newContents = strings.Replace(newContents, ...)`. -/
def applyReplacements (rs : List (String × String)) (contents : List Char) : List Char :=
  rs.foldl (fun newContents r => replaceAll r.1.toList r.2.toList newContents) contents

/-- What the walk hands to the function for one path, and what the file system
answers: the `err` argument, `fi.IsDir()`, the result of
`filepath.Match("*", fi.Name())`, the result of `ioutil.ReadFile(path)` and the
error of `ioutil.WriteFile`. -/
structure WalkEntry where
  err : Option String
  isDir : Bool
  matched : Bool
  read : Except String (List Char)
  writeErr : Option String

/-- The contents handed to `ioutil.WriteFile`, if it is called, and the error returned. -/
structure WalkResult where
  written : Option (List Char)
  err : Option String

/-- The function returned by `detokenizeCivoGitops(path, tokens)`, on one path. -/
def detokenizeCivoGitops (tokens : GitOpsDirectoryValues) (e : WalkEntry) : WalkResult :=
  match e.err with
  | some err => ⟨none, some err⟩
  | none =>
    if e.isDir then ⟨none, none⟩
    else if e.matched then
      match e.read with
      | .error err => ⟨none, some err⟩
      | .ok read =>
        let newContents := applyReplacements (gitopsReplacements tokens) read
        ⟨some newContents, e.writeErr⟩
    else ⟨none, none⟩

/-- The placeholders that `detokenizeCivoGitops` translates. -/
def gitopsPlaceholders : List String :=
  ["<ADMIN_EMAIL_ADDRESS>", "<ATLANTIS_ALLOW_LIST>",
   "<CLUSTER_NAME>", "<CLOUD_PROVIDER>",
   "<CLOUD_REGION>", "<CLUSTER_NAME>",
   "<CLUSTER_ID>", "<CLUSTER_TYPE>",
   "<DOMAIN_NAME>", "<KUBE_CONFIG_PATH>",
   "<KUBEFIRST_STATE_STORE_BUCKET>", "<KUBEFIRST_TEAM>",
   "<KUBEFIRST_VERSION>", "<ARGO_CD_INGRESS_URL>",
   "<ARGOCD_INGRESS_NO_HTTP_URL>", "<ARGO_WORKFLOWS_INGRESS_URL>",
   "<ARGO_WORKFLOWS_INGRESS_NO_HTTPS_URL>", "<ATLANTIS_INGRESS_URL>",
   "<ATLANTIS_INGRESS_NO_HTTPS_URL>", "<CHARTMUSEUM_INGRESS_URL>",
   "<VAULT_INGRESS_URL>", "<VAULT_INGRESS_NO_HTTPS_URL>",
   "<VOUCH_INGRESS_URL>", "<GIT_DESCRIPTION>",
   "<GIT_NAMESPACE>", "<GIT_PROVIDER>",
   "<GIT_RUNNER>", "<GIT_RUNNER_DESCRIPTION>",
   "<GIT_RUNNER_NS>", "<GIT_URL>",
   "<GITHUB_HOST>", "<GITHUB_OWNER>",
   "<GITHUB_USER>", "<GITOPS_REPO_ATLANTIS_WEBHOOK_URL>",
   "<GITOPS_REPO_GIT_URL>", "<GITOPS_REPO_NO_HTTPS_URL>",
   "<METAPHOR_DEVELOPMENT_INGRESS_URL>", "<METAPHOR_PRODUCTION_INGRESS_URL>",
   "<METAPHOR_STAGING_INGRESS_URL>", "<USE_TELEMETRY>"]

/-- A piece of a template: a character, or a placeholder. -/
inductive Piece where
  | char (c : Char)
  | token (name : List Char)
  deriving DecidableEq

/-- The text of a list of pieces. -/
def renderPieces : List Piece → List Char
  | [] => []
  | .char c :: ps => c :: renderPieces ps
  | .token name :: ps => name ++ renderPieces ps

/-- A piece of a well-formed template: a character other than `<`, or one of the
given placeholders. -/
def Piece.valid (names : List (List Char)) : Piece → Bool
  | .char c => decide (c ≠ '<')
  | .token name => decide (name ∈ names)

/-- Token values as set for a cluster `kubefirst` on `example.com`, with an empty
runner namespace. -/
def exampleTokens : GitOpsDirectoryValues :=
  { AlertsEmail := "",
    AtlantisAllowList := "",
    ClusterName := "kubefirst",
    CloudProvider := "",
    CloudRegion := "",
    ClusterId := "",
    ClusterType := "",
    DomainName := "example.com",
    KubeconfigPath := "",
    KubefirstStateStoreBucket := "",
    KubefirstTeam := "",
    KubefirstVersion := "",
    ArgoCDIngressURL := "",
    ArgoCDIngressNoHTTPSURL := "",
    ArgoWorkflowsIngressURL := "",
    ArgoWorkflowsIngressNoHTTPSURL := "",
    AtlantisIngressURL := "",
    AtlantisIngressNoHTTPSURL := "",
    ChartMuseumIngressURL := "",
    VaultIngressURL := "",
    VaultIngressNoHTTPSURL := "",
    VouchIngressURL := "",
    GitDescription := "",
    GitNamespace := "",
    GitProvider := "github",
    GitRunner := "",
    GitRunnerDescription := "",
    GitRunnerNS := "",
    GitURL := "",
    GitHubHost := "",
    GitHubOwner := "",
    GitHubUser := "",
    GitOpsRepoAtlantisWebhookURL := "",
    GitOpsRepoGitURL := "",
    GitOpsRepoNoHTTPSURL := "",
    UseTelemetry := "" }

/-- A placeholder: `<`, a body without `<` and `>`, and `>`. -/
def Shaped (p : List Char) : Prop :=
  ∃ body, p = '<' :: (body ++ ['>']) ∧ ∀ c ∈ body, c ≠ '<' ∧ c ≠ '>'

/-- The test for a placeholder. -/
def isPlaceholder (p : List Char) : Bool :=
  decide (p = '<' :: (p.tail.dropLast ++ ['>'])) &&
    p.tail.dropLast.all fun c => decide (c ≠ '<') && decide (c ≠ '>')

/-- The pieces after one replacement: the placeholder gives way to the characters
of its value. -/
def substPieces (p v : List Char) : List Piece → List Piece
  | [] => []
  | .char c :: ps => .char c :: substPieces p v ps
  | .token name :: ps =>
    if name = p then v.map Piece.char ++ substPieces p v ps
    else .token name :: substPieces p v ps

end Kubefirst

namespace Kubefirst

/-! ## The watch loop -/

theorem channelWins_of_lt (a now : Nat) (d : Int) (t : Bool) (h : (a : Int) < d) :
    channelWins (max now a) now d t = true := by
  have h1 : a < d.toNat := by omega
  have h2 : max now a < timerFires now d := by
    unfold timerFires
    rcases Nat.le_total now a with h3 | h3
    · rw [Nat.max_eq_right h3]; omega
    · rw [Nat.max_eq_left h3]; omega
  simp [channelWins, h2]

/-- An event that arrives in time and satisfies the test ends the loop. -/
theorem watchLoop_hit {α ρ : Type} (spec : LoopSpec α ρ) (d : Int) (tie : Nat → Bool)
    (closedAt : Option Nat) (a : Nat) (obj : α) (rest : List (Nat × Event α)) (now n : Nat)
    (fin : Finish ρ) (h : (a : Int) < d) (hc : spec.check obj = some fin) :
    watchLoop spec d tie closedAt ((a, ⟨some obj⟩) :: rest) now n =
      ⟨fin.outcome, max now a + pause spec.pace, n + 1, fin.calls, fin.logs⟩ := by
  simp [watchLoop, channelWins_of_lt a now d (tie n) h, hc]

/-- Events that arrive in time and fail the test are received and passed over. -/
theorem watchLoop_skip {α ρ : Type} (spec : LoopSpec α ρ) (d : Int) (tie : Nat → Bool)
    (closedAt : Option Nat) (pre : List (Nat × α)) (rest : List (Nat × Event α))
    (hc : ∀ p ∈ pre, spec.check p.2 = none) (ht : ∀ p ∈ pre, (p.1 : Int) < d) :
    ∀ now n, ∃ now2, watchLoop spec d tie closedAt (eventsOf pre ++ rest) now n =
      watchLoop spec d tie closedAt rest now2 (n + pre.length) := by
  induction pre with
  | nil => intro now n; exact ⟨now, by simp [eventsOf]⟩
  | cons p ps ih =>
    intro now n
    have hp := hc p (List.mem_cons_self _ _)
    have htp := ht p (List.mem_cons_self _ _)
    obtain ⟨now2, h2⟩ := ih (fun q hq => hc q (List.mem_cons_of_mem _ hq))
      (fun q hq => ht q (List.mem_cons_of_mem _ hq)) (max now p.1 + pause spec.pace) (n + 1)
    refine ⟨now2, ?_⟩
    have : eventsOf (p :: ps) ++ rest = (p.1, ⟨some p.2⟩) :: (eventsOf ps ++ rest) := by
      simp [eventsOf]
    rw [this]
    simp only [watchLoop, channelWins_of_lt p.1 now d (tie n) htp, hp, if_true]
    rw [h2]
    congr 1
    simp only [List.length_cons]; omega

/-- The loop leaves at the first event that satisfies the test, when that event and
those before it arrive in time. -/
theorem watchLoop_first {α ρ : Type} (spec : LoopSpec α ρ) (d : Int) (tie : Nat → Bool)
    (closedAt : Option Nat) (pre : List (Nat × α)) (a : Nat) (obj : α)
    (rest : List (Nat × Event α)) (fin : Finish ρ)
    (hc : ∀ p ∈ pre, spec.check p.2 = none) (ht : ∀ p ∈ pre, (p.1 : Int) < d)
    (ha : (a : Int) < d) (hobj : spec.check obj = some fin) (now n : Nat) :
    ∃ t, watchLoop spec d tie closedAt (eventsOf pre ++ (a, ⟨some obj⟩) :: rest) now n =
      ⟨fin.outcome, t, n + pre.length + 1, fin.calls, fin.logs⟩ := by
  obtain ⟨now2, h2⟩ := watchLoop_skip spec d tie closedAt pre ((a, ⟨some obj⟩) :: rest) hc ht now n
  exact ⟨max now2 a + pause spec.pace, by
    rw [h2, watchLoop_hit spec d tie closedAt a obj rest now2 (n + pre.length) fin ha hobj]⟩

/-- On a channel that stays open, a loop whose test no event satisfies ends in
the timeout case, whatever the arrival instants. -/
theorem watchLoop_never {α ρ : Type} (spec : LoopSpec α ρ) (d : Int) (tie : Nat → Bool)
    (evs : List (Nat × α)) (hc : ∀ p ∈ evs, spec.check p.2 = none) :
    ∀ now n, (watchLoop spec d tie none (eventsOf evs) now n).outcome =
      .returned spec.timeoutValue := by
  induction evs with
  | nil => intro now n; simp [eventsOf, watchLoop]
  | cons p ps ih =>
    intro now n
    have hp := hc p (List.mem_cons_self _ _)
    have : eventsOf (p :: ps) = (p.1, ⟨some p.2⟩) :: eventsOf ps := by simp [eventsOf]
    rw [this]
    simp only [watchLoop, hp]
    split
    · exact ih (fun q hq => hc q (List.mem_cons_of_mem _ hq)) _ _
    · rfl

/-! ## Readiness watcher: Deployment -/

/-- C1: with the client built and the watch opened, when the events before the
first one whose `ReadyReplicas` equals the snapshot's `Status.Replicas` all carry
another `ReadyReplicas` (smaller or larger), and these events arrive before the
deadline, `WaitForDeploymentReady` returns `(true, nil)` on receiving exactly that
first event. The threshold is the `Status.Replicas` of the snapshot passed in:
the `Status.Replicas` carried by the events is arbitrary and plays no part. -/
theorem WaitForDeploymentReady_first_exact (c : Cluster Deployment) (kubeConfigPath : String)
    (deployment : Deployment) (timeoutSeconds : Int) (objChan : WatchChan Deployment)
    (pre : List (Nat × Deployment)) (a : Nat) (hit : Deployment)
    (post : List (Nat × Event Deployment))
    (hclient : c.GetClientSet kubeConfigPath = none)
    (hwatch : c.watch deployment.Namespace
      { FieldSelector := "metadata.name=" ++ deployment.Name } = .ok objChan)
    (hevents : objChan.events = eventsOf pre ++ (a, ⟨some hit⟩) :: post)
    (hpre : ∀ p ∈ pre, p.2.Status.ReadyReplicas ≠ deployment.Status.Replicas)
    (hhit : hit.Status.ReadyReplicas = deployment.Status.Replicas)
    (hpreTime : ∀ p ∈ pre, (p.1 : Int) < timeoutDuration timeoutSeconds)
    (hhitTime : (a : Int) < timeoutDuration timeoutSeconds) :
    (WaitForDeploymentReady c kubeConfigPath deployment timeoutSeconds).outcome
        = .returned (true, none) ∧
      (WaitForDeploymentReady c kubeConfigPath deployment timeoutSeconds).received
        = pre.length + 1 := by
  simp only [WaitForDeploymentReady, hclient, hwatch, hevents, Run.after]
  obtain ⟨t, h⟩ := watchLoop_first
    { pace := true
      onClosed := ⟨.fatal, "Error waiting for Deployment: %!s(<nil>)"⟩
      check := fun obj =>
        if obj.Status.ReadyReplicas = deployment.Status.Replicas then
          some ⟨.returned (true, none), [],
            [⟨.info, "All Pods in Deployment " ++ deployment.Name ++ " are ready."⟩]⟩
        else none
      timeoutLog := ⟨.error, "The Deployment was not ready within the timeout period."⟩
      timeoutValue := (false, some "The Deployment was not ready within the timeout period.") }
    (timeoutDuration timeoutSeconds) c.tie objChan.closedAt pre a hit post _
    (fun p hp => by simp [hpre p hp]) hpreTime hhitTime (by simp [hhit]; rfl) 0 0
  rw [h]
  simp

/-- C1 witness: with 3 configured replicas and events reporting 1, 2 and 3 ready
replicas inside a 30 second timeout, the call returns true on the third event. -/
theorem WaitForDeploymentReady_first_exact_witness :
    (WaitForDeploymentReady
        (clusterOf ⟨eventsOf [(1000000000, deploymentWith 3 1), (2000000000, deploymentWith 5 2),
          (3000000000, deploymentWith 4 3)], none⟩ [])
        "kubeconfig" (deploymentWith 3 0) 30).outcome = .returned (true, none) ∧
      (WaitForDeploymentReady
        (clusterOf ⟨eventsOf [(1000000000, deploymentWith 3 1), (2000000000, deploymentWith 5 2),
          (3000000000, deploymentWith 4 3)], none⟩ [])
        "kubeconfig" (deploymentWith 3 0) 30).received = 2 + 1 :=
  WaitForDeploymentReady_first_exact _ "kubeconfig" (deploymentWith 3 0) 30
    ⟨eventsOf [(1000000000, deploymentWith 3 1), (2000000000, deploymentWith 5 2),
      (3000000000, deploymentWith 4 3)], none⟩
    [(1000000000, deploymentWith 3 1), (2000000000, deploymentWith 5 2)] 3000000000
    (deploymentWith 4 3) [] rfl rfl rfl (by decide) (by decide) (by decide) (by decide)

/-- C2: the timer is armed anew in every iteration of the loop, so the timeout is
not one deadline counted from call entry. With 2 configured replicas and a 2
second timeout, events reporting 1 ready replica arrive after 1 s and 2.5 s and an
event reporting 2 ready replicas arrives after 4 s: the call returns `(true, nil)`
after 5 s. When the third event reports 1 ready replica as well and arrives after
4.5 s, the timeout is returned after 7.5 s. -/
theorem WaitForDeploymentReady_timer_rearmed :
    (WaitForDeploymentReady
        (clusterOf ⟨eventsOf [(1000000000, deploymentWith 2 1), (2500000000, deploymentWith 2 1),
          (4000000000, deploymentWith 2 2)], none⟩ [])
        "kubeconfig" (deploymentWith 2 0) 2).outcome = .returned (true, none) ∧
      (WaitForDeploymentReady
        (clusterOf ⟨eventsOf [(1000000000, deploymentWith 2 1), (2500000000, deploymentWith 2 1),
          (4000000000, deploymentWith 2 2)], none⟩ [])
        "kubeconfig" (deploymentWith 2 0) 2).elapsed = 5000000000 ∧
      (WaitForDeploymentReady
        (clusterOf ⟨eventsOf [(1000000000, deploymentWith 2 1), (2500000000, deploymentWith 2 1),
          (4500000000, deploymentWith 2 1)], none⟩ [])
        "kubeconfig" (deploymentWith 2 0) 2).outcome =
          .returned (false, some "The Deployment was not ready within the timeout period.") ∧
      (WaitForDeploymentReady
        (clusterOf ⟨eventsOf [(1000000000, deploymentWith 2 1), (2500000000, deploymentWith 2 1),
          (4500000000, deploymentWith 2 1)], none⟩ [])
        "kubeconfig" (deploymentWith 2 0) 2).elapsed = 7500000000 := by
  refine ⟨by decide, by rfl, by decide, by rfl⟩

/-! ## Readiness watcher: StatefulSet -/

/-- C3: on a channel that stays open, let the events carry StatefulSets none of
which has `ReadyReplicas` equal to the snapshot's `Status.Replicas`, and let `hit`
be the first with `CurrentReplicas` equal to it. With `ignoreReady` set, and the
events up to `hit` arriving before the deadline, the call returns `(true, nil)` on
receiving `hit`; with `ignoreReady` unset the call returns the timeout result
`(false, error)`. -/
theorem WaitForStatefulSetReady_ignoreReady_selects (c : Cluster StatefulSet)
    (kubeConfigPath : String) (statefulset : StatefulSet) (timeoutSeconds : Int)
    (objChan : WatchChan StatefulSet) (pre : List (Nat × StatefulSet)) (a : Nat)
    (hit : StatefulSet) (post : List (Nat × StatefulSet))
    (hclient : c.GetClientSet kubeConfigPath = none)
    (hwatch : c.watch statefulset.Namespace
      { FieldSelector := "metadata.name=" ++ statefulset.Name } = .ok objChan)
    (hevents : objChan.events = eventsOf (pre ++ (a, hit) :: post))
    (hopen : objChan.closedAt = none)
    (hpre : ∀ p ∈ pre, p.2.Status.CurrentReplicas ≠ statefulset.Status.Replicas)
    (hhit : hit.Status.CurrentReplicas = statefulset.Status.Replicas)
    (hready : ∀ p ∈ pre ++ (a, hit) :: post,
      p.2.Status.ReadyReplicas ≠ statefulset.Status.Replicas)
    (hpreTime : ∀ p ∈ pre, (p.1 : Int) < timeoutDuration timeoutSeconds)
    (hhitTime : (a : Int) < timeoutDuration timeoutSeconds) :
    (WaitForStatefulSetReady c kubeConfigPath statefulset timeoutSeconds true).outcome
        = .returned (true, none) ∧
      (WaitForStatefulSetReady c kubeConfigPath statefulset timeoutSeconds true).received
        = pre.length + 1 ∧
      (WaitForStatefulSetReady c kubeConfigPath statefulset timeoutSeconds false).outcome
        = .returned (false, some "The StatefulSet was not ready within the timeout period.") := by
  have hsplit : eventsOf (pre ++ (a, hit) :: post)
      = eventsOf pre ++ (a, ⟨some hit⟩) :: eventsOf post := by simp [eventsOf]
  refine ⟨?_, ?_, ?_⟩
  · simp only [WaitForStatefulSetReady, hclient, hwatch, hevents, Run.after, hsplit]
    obtain ⟨t, h⟩ := watchLoop_first
      { pace := true
        onClosed := ⟨.fatal, "Error waiting for StatefulSet: %!s(<nil>)"⟩
        check := fun obj =>
          if obj.Status.CurrentReplicas = statefulset.Status.Replicas then
            some ⟨.returned (true, none), [],
              [⟨.info, "All Pods in StatefulSet " ++ statefulset.Name ++
                " have been created."⟩]⟩
          else none
        timeoutLog := ⟨.error, "The StatefulSet was not ready within the timeout period."⟩
        timeoutValue :=
          (false, some "The StatefulSet was not ready within the timeout period.") }
      (timeoutDuration timeoutSeconds) c.tie objChan.closedAt pre a hit (eventsOf post) _
      (fun p hp => by simp [hpre p hp]) hpreTime hhitTime (by simp [hhit]; rfl) 0 0
    simp only [if_true]
    rw [h]
  · simp only [WaitForStatefulSetReady, hclient, hwatch, hevents, Run.after, hsplit]
    obtain ⟨t, h⟩ := watchLoop_first
      { pace := true
        onClosed := ⟨.fatal, "Error waiting for StatefulSet: %!s(<nil>)"⟩
        check := fun obj =>
          if obj.Status.CurrentReplicas = statefulset.Status.Replicas then
            some ⟨.returned (true, none), [],
              [⟨.info, "All Pods in StatefulSet " ++ statefulset.Name ++
                " have been created."⟩]⟩
          else none
        timeoutLog := ⟨.error, "The StatefulSet was not ready within the timeout period."⟩
        timeoutValue :=
          (false, some "The StatefulSet was not ready within the timeout period.") }
      (timeoutDuration timeoutSeconds) c.tie objChan.closedAt pre a hit (eventsOf post) _
      (fun p hp => by simp [hpre p hp]) hpreTime hhitTime (by simp [hhit]; rfl) 0 0
    simp only [if_true]
    rw [h]
    simp
  · simp only [WaitForStatefulSetReady, hclient, hwatch, hevents, Run.after, hopen]
    exact watchLoop_never _ (timeoutDuration timeoutSeconds) c.tie _
      (fun p hp => by simp [hready p hp]) 0 0

/-- C3 witness: 3 configured replicas; the events report 1 and then 3 current
replicas while the ready replicas stay below 3, inside a 30 second timeout. -/
theorem WaitForStatefulSetReady_ignoreReady_selects_witness :
    (WaitForStatefulSetReady
        (clusterOf ⟨eventsOf [(1000000000, statefulSetWith 3 0 1),
          (2000000000, statefulSetWith 3 1 3), (3000000000, statefulSetWith 3 2 3)], none⟩ [])
        "kubeconfig" (statefulSetWith 3 0 0) 30 true).outcome = .returned (true, none) ∧
      (WaitForStatefulSetReady
        (clusterOf ⟨eventsOf [(1000000000, statefulSetWith 3 0 1),
          (2000000000, statefulSetWith 3 1 3), (3000000000, statefulSetWith 3 2 3)], none⟩ [])
        "kubeconfig" (statefulSetWith 3 0 0) 30 true).received = 1 + 1 ∧
      (WaitForStatefulSetReady
        (clusterOf ⟨eventsOf [(1000000000, statefulSetWith 3 0 1),
          (2000000000, statefulSetWith 3 1 3), (3000000000, statefulSetWith 3 2 3)], none⟩ [])
        "kubeconfig" (statefulSetWith 3 0 0) 30 false).outcome
        = .returned (false, some "The StatefulSet was not ready within the timeout period.") :=
  WaitForStatefulSetReady_ignoreReady_selects _ "kubeconfig" (statefulSetWith 3 0 0) 30
    ⟨eventsOf [(1000000000, statefulSetWith 3 0 1),
      (2000000000, statefulSetWith 3 1 3), (3000000000, statefulSetWith 3 2 3)], none⟩
    [(1000000000, statefulSetWith 3 0 1)] 2000000000 (statefulSetWith 3 1 3)
    [(3000000000, statefulSetWith 3 2 3)] rfl rfl rfl rfl (by decide) (by decide) (by decide)
    (by decide) (by decide)

/-! ## Closed channel -/

/-- C4: on a watch channel that is closed at once with no event, `WaitForPodReady`
logs `fail` at error level only, goes on to read the phase of the zero event, whose
`Object` is nil, and panics; on the same channel the other five operations end in
`log.Fatal()`. -/
theorem WaitForPodReady_closed_channel_not_fatal :
    (WaitForPodReady (clusterOf ⟨[], some 0⟩ []) "kubeconfig" (podIn "Pending") 30).outcome
        = .panicked ∧
      (WaitForPodReady (clusterOf ⟨[], some 0⟩ []) "kubeconfig" (podIn "Pending") 30).logs
        = [⟨.info, "Waiting for vault-0 Pod to be ready. This could take up to 30 seconds."⟩,
           ⟨.error, "fail"⟩] ∧
      (WaitForDeploymentReady (clusterOf ⟨[], some 0⟩ []) "kubeconfig"
        (deploymentWith 2 0) 30).outcome = .exited ∧
      (WaitForStatefulSetReady (clusterOf ⟨[], some 0⟩ []) "kubeconfig"
        (statefulSetWith 2 0 0) 30 false).outcome = .exited ∧
      (ReturnDeploymentObject (clusterOf ⟨[], some 0⟩ []) "kubeconfig" "app" "argocd-server"
        "argocd" 30).outcome = .exited ∧
      (ReturnPodObject (clusterOf ⟨[], some 0⟩ []) "kubeconfig" "app" "vault"
        "vault" 30).outcome = .exited ∧
      (ReturnStatefulSetObject (clusterOf ⟨[], some 0⟩ []) "kubeconfig" "app" "vault"
        "vault" 30).outcome = .exited := by
  refine ⟨by decide, by decide, by decide, by decide, by decide, by decide, by decide⟩

/-! ## Readiness watcher: Pod -/

/-- C5: with the client built and the watch opened, when the events before the
first one in phase `Running` are in other phases (`Pending` among them), and these
events arrive before the deadline, `WaitForPodReady` returns `(true, nil)` on
receiving exactly that first `Running` event. -/
theorem WaitForPodReady_first_running (c : Cluster Pod) (kubeConfigPath : String)
    (pod : Pod) (timeoutSeconds : Int) (objChan : WatchChan Pod)
    (pre : List (Nat × Pod)) (a : Nat) (hit : Pod) (post : List (Nat × Event Pod))
    (hclient : c.GetClientSet kubeConfigPath = none)
    (hwatch : c.watch pod.Namespace { FieldSelector := "metadata.name=" ++ pod.Name }
      = .ok objChan)
    (hevents : objChan.events = eventsOf pre ++ (a, ⟨some hit⟩) :: post)
    (hpre : ∀ p ∈ pre, p.2.Status.Phase ≠ "Running")
    (hhit : hit.Status.Phase = "Running")
    (hpreTime : ∀ p ∈ pre, (p.1 : Int) < timeoutDuration timeoutSeconds)
    (hhitTime : (a : Int) < timeoutDuration timeoutSeconds) :
    (WaitForPodReady c kubeConfigPath pod timeoutSeconds).outcome = .returned (true, none) ∧
      (WaitForPodReady c kubeConfigPath pod timeoutSeconds).received = pre.length + 1 := by
  simp only [WaitForPodReady, hclient, hwatch, hevents, Run.after]
  generalize hS : LoopSpec.mk _ _ _ _ _ = S
  have hcheck : ∀ obj, S.check obj = if obj.Status.Phase = "Running" then
      some ⟨.returned (true, none), [],
        [⟨.info, "Pod " ++ pod.Name ++ " is " ++ obj.Status.Phase ++ "."⟩]⟩ else none := by
    intro obj; rw [← hS]
  obtain ⟨t, h⟩ := watchLoop_first S (timeoutDuration timeoutSeconds) c.tie objChan.closedAt
    pre a hit post _ (fun p hp => by simp [hcheck, hpre p hp]) hpreTime hhitTime
    (by rw [hcheck, if_pos hhit]) 0 0
  rw [h]
  simp

/-- C5 witness: two `Pending` events and then a `Running` one inside a 30 second
timeout: the call returns true on the third event. -/
theorem WaitForPodReady_first_running_witness :
    (WaitForPodReady
        (clusterOf ⟨eventsOf [(1000000000, podIn "Pending"), (2000000000, podIn "Pending"),
          (3000000000, podIn "Running")], none⟩ [])
        "kubeconfig" (podIn "Pending") 30).outcome = .returned (true, none) ∧
      (WaitForPodReady
        (clusterOf ⟨eventsOf [(1000000000, podIn "Pending"), (2000000000, podIn "Pending"),
          (3000000000, podIn "Running")], none⟩ [])
        "kubeconfig" (podIn "Pending") 30).received = 2 + 1 :=
  WaitForPodReady_first_running _ "kubeconfig" (podIn "Pending") 30
    ⟨eventsOf [(1000000000, podIn "Pending"), (2000000000, podIn "Pending"),
      (3000000000, podIn "Running")], none⟩
    [(1000000000, podIn "Pending"), (2000000000, podIn "Pending")] 3000000000
    (podIn "Running") [] rfl rfl rfl (by decide) (by decide) (by decide) (by decide)

/-! ## Resource locator -/

theorem listFirst_calls {α : Type} (c : Cluster α) (kind : Kind) (ns : String)
    (opts : ListOptions) (fatalMsg : String) :
    (listFirst c kind ns opts fatalMsg).calls = [.list kind ns opts] := by
  unfold listFirst
  split <;> rfl

theorem listFirst_ok {α : Type} (c : Cluster α) (kind : Kind) (ns : String)
    (opts : ListOptions) (fatalMsg : String) (item : α) (more : List α)
    (h : c.list ns opts = .ok (item :: more)) :
    (listFirst c kind ns opts fatalMsg).outcome = .returned (some item, none) := by
  simp [listFirst, h]

/-- C6: with the client built and the watch opened on the selector
`matchLabel=matchLabelValue`, when the events before the first one in phase
`Pending` or `Running` are in other phases, and these events arrive before the
deadline, `ReturnPodObject` stops on receiving that first event whatever follows
it, sends one list request for Pods in the same namespace with the same selector
right after the watch request, and, when that list holds at least one item,
returns its first item with a nil error. -/
theorem ReturnPodObject_first_match (c : Cluster Pod) (kubeConfigPath matchLabel
    matchLabelValue ns : String) (timeoutSeconds : Int) (objChan : WatchChan Pod)
    (pre : List (Nat × Pod)) (a : Nat) (hit : Pod) (post : List (Nat × Event Pod))
    (hclient : c.GetClientSet kubeConfigPath = none)
    (hwatch : c.watch ns { LabelSelector := matchLabel ++ "=" ++ matchLabelValue }
      = .ok objChan)
    (hevents : objChan.events = eventsOf pre ++ (a, ⟨some hit⟩) :: post)
    (hpre : ∀ p ∈ pre, p.2.Status.Phase ≠ "Pending" ∧ p.2.Status.Phase ≠ "Running")
    (hhit : hit.Status.Phase = "Pending" ∨ hit.Status.Phase = "Running")
    (hpreTime : ∀ p ∈ pre, (p.1 : Int) < timeoutDuration timeoutSeconds)
    (hhitTime : (a : Int) < timeoutDuration timeoutSeconds) :
    (ReturnPodObject c kubeConfigPath matchLabel matchLabelValue ns timeoutSeconds).received
        = pre.length + 1 ∧
      (ReturnPodObject c kubeConfigPath matchLabel matchLabelValue ns timeoutSeconds).calls
        = [.watch .pods ns { LabelSelector := matchLabel ++ "=" ++ matchLabelValue },
           .list .pods ns { LabelSelector := matchLabel ++ "=" ++ matchLabelValue }] ∧
      ∀ item more,
        c.list ns { LabelSelector := matchLabel ++ "=" ++ matchLabelValue } = .ok (item :: more) →
        (ReturnPodObject c kubeConfigPath matchLabel matchLabelValue ns timeoutSeconds).outcome
          = .returned (some item, none) := by
  simp only [ReturnPodObject, hclient, hwatch, hevents, Run.after]
  generalize hS : LoopSpec.mk _ _ _ _ _ = S
  have hcheck : ∀ obj, S.check obj =
      if obj.Status.Phase = "Pending" then
        some (listFirst c .pods ns { LabelSelector := matchLabel ++ "=" ++ matchLabelValue }
          "Error when searching for Pod: ")
      else if obj.Status.Phase = "Running" then
        some (listFirst c .pods ns { LabelSelector := matchLabel ++ "=" ++ matchLabelValue }
          "Error when searching for Pod: ")
      else none := by
    intro obj; rw [← hS]
  obtain ⟨t, h⟩ := watchLoop_first S (timeoutDuration timeoutSeconds) c.tie objChan.closedAt
    pre a hit post
    (listFirst c .pods ns { LabelSelector := matchLabel ++ "=" ++ matchLabelValue }
      "Error when searching for Pod: ")
    (fun p hp => by simp [hcheck, hpre p hp]) hpreTime hhitTime
    (by rw [hcheck]; rcases hhit with h1 | h1 <;> simp [h1]) 0 0
  rw [h]
  refine ⟨by simp, by simp [listFirst_calls], ?_⟩
  intro item more hlist
  exact listFirst_ok c .pods ns _ _ item more hlist

/-- C6 witness: a `Failed` event, then a `Pending` one and a `Running` one inside a
30 second timeout: the locator stops on the second event and returns the first
listed Pod. -/
theorem ReturnPodObject_first_match_witness :
    (ReturnPodObject
        (clusterOf ⟨eventsOf [(1000000000, podIn "Failed"), (2000000000, podIn "Pending"),
          (3000000000, podIn "Running")], none⟩ [podIn "Running", podIn "Pending"])
        "kubeconfig" "app.kubernetes.io/name" "vault" "vault" 30).received = 1 + 1 ∧
      (ReturnPodObject
        (clusterOf ⟨eventsOf [(1000000000, podIn "Failed"), (2000000000, podIn "Pending"),
          (3000000000, podIn "Running")], none⟩ [podIn "Running", podIn "Pending"])
        "kubeconfig" "app.kubernetes.io/name" "vault" "vault" 30).calls
        = [.watch .pods "vault" { LabelSelector := "app.kubernetes.io/name" ++ "=" ++ "vault" },
           .list .pods "vault" { LabelSelector := "app.kubernetes.io/name" ++ "=" ++ "vault" }] ∧
      (ReturnPodObject
        (clusterOf ⟨eventsOf [(1000000000, podIn "Failed"), (2000000000, podIn "Pending"),
          (3000000000, podIn "Running")], none⟩ [podIn "Running", podIn "Pending"])
        "kubeconfig" "app.kubernetes.io/name" "vault" "vault" 30).outcome
        = .returned (some (podIn "Running"), none) :=
  have h := ReturnPodObject_first_match
    (clusterOf ⟨eventsOf [(1000000000, podIn "Failed"), (2000000000, podIn "Pending"),
      (3000000000, podIn "Running")], none⟩ [podIn "Running", podIn "Pending"])
    "kubeconfig" "app.kubernetes.io/name" "vault" "vault" 30
    ⟨eventsOf [(1000000000, podIn "Failed"), (2000000000, podIn "Pending"),
      (3000000000, podIn "Running")], none⟩
    [(1000000000, podIn "Failed")] 2000000000 (podIn "Pending")
    (eventsOf [(3000000000, podIn "Running")]) rfl rfl rfl (by decide) (by decide)
    (by decide) (by decide)
  ⟨h.1, h.2.1, h.2.2 (podIn "Running") [podIn "Pending"] rfl⟩

theorem ReturnDeploymentObject_first_positive (c : Cluster Deployment) (kubeConfigPath
    matchLabel matchLabelValue ns : String) (timeoutSeconds : Int)
    (objChan : WatchChan Deployment) (pre : List (Nat × Deployment)) (a : Nat)
    (hit : Deployment) (post : List (Nat × Event Deployment))
    (hclient : c.GetClientSet kubeConfigPath = none)
    (hwatch : c.watch ns { LabelSelector := matchLabel ++ "=" ++ matchLabelValue }
      = .ok objChan)
    (hevents : objChan.events = eventsOf pre ++ (a, ⟨some hit⟩) :: post)
    (hpre : ∀ p ∈ pre, p.2.Status.Replicas ≤ 0)
    (hhit : 0 < hit.Status.Replicas)
    (hpreTime : ∀ p ∈ pre, (p.1 : Int) < timeoutDuration timeoutSeconds)
    (hhitTime : (a : Int) < timeoutDuration timeoutSeconds) :
    (ReturnDeploymentObject c kubeConfigPath matchLabel matchLabelValue ns
        timeoutSeconds).received = pre.length + 1 ∧
      (ReturnDeploymentObject c kubeConfigPath matchLabel matchLabelValue ns
        timeoutSeconds).calls
        = [.watch .deployments ns { LabelSelector := matchLabel ++ "=" ++ matchLabelValue },
           .list .deployments ns { LabelSelector := matchLabel ++ "=" ++ matchLabelValue }] ∧
      ∀ item more,
        c.list ns { LabelSelector := matchLabel ++ "=" ++ matchLabelValue } = .ok (item :: more) →
        (ReturnDeploymentObject c kubeConfigPath matchLabel matchLabelValue ns
          timeoutSeconds).outcome = .returned (some item, none) := by
  simp only [ReturnDeploymentObject, hclient, hwatch, hevents, Run.after]
  generalize hS : LoopSpec.mk _ _ _ _ _ = S
  have hcheck : ∀ obj, S.check obj =
      if obj.Status.Replicas > (0 : Int) then
        some (listFirst c .deployments ns
          { LabelSelector := matchLabel ++ "=" ++ matchLabelValue }
          "Error when searching for Deployment: ")
      else none := by
    intro obj; rw [← hS]
  obtain ⟨t, h⟩ := watchLoop_first S (timeoutDuration timeoutSeconds) c.tie objChan.closedAt
    pre a hit post
    (listFirst c .deployments ns { LabelSelector := matchLabel ++ "=" ++ matchLabelValue }
      "Error when searching for Deployment: ")
    (fun p hp => by rw [hcheck, if_neg (not_lt.mpr (hpre p hp))]) hpreTime hhitTime
    (by rw [hcheck, if_pos hhit]) 0 0
  rw [h]
  refine ⟨by simp, by simp [listFirst_calls], ?_⟩
  intro item more hlist
  exact listFirst_ok c .deployments ns _ _ item more hlist

theorem ReturnStatefulSetObject_first_positive (c : Cluster StatefulSet) (kubeConfigPath
    matchLabel matchLabelValue ns : String) (timeoutSeconds : Int)
    (objChan : WatchChan StatefulSet) (pre : List (Nat × StatefulSet)) (a : Nat)
    (hit : StatefulSet) (post : List (Nat × Event StatefulSet))
    (hclient : c.GetClientSet kubeConfigPath = none)
    (hwatch : c.watch ns { LabelSelector := matchLabel ++ "=" ++ matchLabelValue }
      = .ok objChan)
    (hevents : objChan.events = eventsOf pre ++ (a, ⟨some hit⟩) :: post)
    (hpre : ∀ p ∈ pre, p.2.Status.Replicas ≤ 0)
    (hhit : 0 < hit.Status.Replicas)
    (hpreTime : ∀ p ∈ pre, (p.1 : Int) < timeoutDuration timeoutSeconds)
    (hhitTime : (a : Int) < timeoutDuration timeoutSeconds) :
    (ReturnStatefulSetObject c kubeConfigPath matchLabel matchLabelValue ns
        timeoutSeconds).received = pre.length + 1 ∧
      (ReturnStatefulSetObject c kubeConfigPath matchLabel matchLabelValue ns
        timeoutSeconds).calls
        = [.watch .statefulSets ns { LabelSelector := matchLabel ++ "=" ++ matchLabelValue },
           .list .statefulSets ns { LabelSelector := matchLabel ++ "=" ++ matchLabelValue }] ∧
      ∀ item more,
        c.list ns { LabelSelector := matchLabel ++ "=" ++ matchLabelValue } = .ok (item :: more) →
        (ReturnStatefulSetObject c kubeConfigPath matchLabel matchLabelValue ns
          timeoutSeconds).outcome = .returned (some item, none) := by
  simp only [ReturnStatefulSetObject, hclient, hwatch, hevents, Run.after]
  generalize hS : LoopSpec.mk _ _ _ _ _ = S
  have hcheck : ∀ obj, S.check obj =
      if obj.Status.Replicas > (0 : Int) then
        some (listFirst c .statefulSets ns
          { LabelSelector := matchLabel ++ "=" ++ matchLabelValue }
          "Error when searching for StatefulSet: ")
      else none := by
    intro obj; rw [← hS]
  obtain ⟨t, h⟩ := watchLoop_first S (timeoutDuration timeoutSeconds) c.tie objChan.closedAt
    pre a hit post
    (listFirst c .statefulSets ns { LabelSelector := matchLabel ++ "=" ++ matchLabelValue }
      "Error when searching for StatefulSet: ")
    (fun p hp => by rw [hcheck, if_neg (not_lt.mpr (hpre p hp))]) hpreTime hhitTime
    (by rw [hcheck, if_pos hhit]) 0 0
  rw [h]
  refine ⟨by simp, by simp [listFirst_calls], ?_⟩
  intro item more hlist
  exact listFirst_ok c .statefulSets ns _ _ item more hlist

/-- C7: for `ReturnDeploymentObject` and for `ReturnStatefulSetObject`, with the
client built and the watch opened on the selector `matchLabel=matchLabelValue`:
when the events before the first one with `Status.Replicas > 0` all have
`Status.Replicas` of 0 (or below), and these events arrive before the deadline, the
locator stops on receiving exactly that first event, sends the list request, and
returns the first listed item with a nil error when the list holds one. The test
reads nothing but the event's own `Status.Replicas`. -/
theorem ReturnObject_first_positive :
    (∀ (c : Cluster Deployment) (kubeConfigPath matchLabel matchLabelValue ns : String)
        (timeoutSeconds : Int) (objChan : WatchChan Deployment) (pre : List (Nat × Deployment))
        (a : Nat) (hit : Deployment) (post : List (Nat × Event Deployment)),
        c.GetClientSet kubeConfigPath = none →
        c.watch ns { LabelSelector := matchLabel ++ "=" ++ matchLabelValue } = .ok objChan →
        objChan.events = eventsOf pre ++ (a, ⟨some hit⟩) :: post →
        (∀ p ∈ pre, p.2.Status.Replicas ≤ 0) →
        0 < hit.Status.Replicas →
        (∀ p ∈ pre, (p.1 : Int) < timeoutDuration timeoutSeconds) →
        (a : Int) < timeoutDuration timeoutSeconds →
        (ReturnDeploymentObject c kubeConfigPath matchLabel matchLabelValue ns
            timeoutSeconds).received = pre.length + 1 ∧
          (ReturnDeploymentObject c kubeConfigPath matchLabel matchLabelValue ns
            timeoutSeconds).calls
            = [.watch .deployments ns { LabelSelector := matchLabel ++ "=" ++ matchLabelValue },
               .list .deployments ns { LabelSelector := matchLabel ++ "=" ++ matchLabelValue }] ∧
          ∀ item more,
            c.list ns { LabelSelector := matchLabel ++ "=" ++ matchLabelValue }
              = .ok (item :: more) →
            (ReturnDeploymentObject c kubeConfigPath matchLabel matchLabelValue ns
              timeoutSeconds).outcome = .returned (some item, none)) ∧
    (∀ (c : Cluster StatefulSet) (kubeConfigPath matchLabel matchLabelValue ns : String)
        (timeoutSeconds : Int) (objChan : WatchChan StatefulSet) (pre : List (Nat × StatefulSet))
        (a : Nat) (hit : StatefulSet) (post : List (Nat × Event StatefulSet)),
        c.GetClientSet kubeConfigPath = none →
        c.watch ns { LabelSelector := matchLabel ++ "=" ++ matchLabelValue } = .ok objChan →
        objChan.events = eventsOf pre ++ (a, ⟨some hit⟩) :: post →
        (∀ p ∈ pre, p.2.Status.Replicas ≤ 0) →
        0 < hit.Status.Replicas →
        (∀ p ∈ pre, (p.1 : Int) < timeoutDuration timeoutSeconds) →
        (a : Int) < timeoutDuration timeoutSeconds →
        (ReturnStatefulSetObject c kubeConfigPath matchLabel matchLabelValue ns
            timeoutSeconds).received = pre.length + 1 ∧
          (ReturnStatefulSetObject c kubeConfigPath matchLabel matchLabelValue ns
            timeoutSeconds).calls
            = [.watch .statefulSets ns { LabelSelector := matchLabel ++ "=" ++ matchLabelValue },
               .list .statefulSets ns { LabelSelector := matchLabel ++ "=" ++ matchLabelValue }] ∧
          ∀ item more,
            c.list ns { LabelSelector := matchLabel ++ "=" ++ matchLabelValue }
              = .ok (item :: more) →
            (ReturnStatefulSetObject c kubeConfigPath matchLabel matchLabelValue ns
              timeoutSeconds).outcome = .returned (some item, none)) :=
  ⟨fun c kubeConfigPath matchLabel matchLabelValue ns timeoutSeconds objChan pre a hit post
      h1 h2 h3 h4 h5 h6 h7 =>
      ReturnDeploymentObject_first_positive c kubeConfigPath matchLabel matchLabelValue ns
        timeoutSeconds objChan pre a hit post h1 h2 h3 h4 h5 h6 h7,
    fun c kubeConfigPath matchLabel matchLabelValue ns timeoutSeconds objChan pre a hit post
      h1 h2 h3 h4 h5 h6 h7 =>
      ReturnStatefulSetObject_first_positive c kubeConfigPath matchLabel matchLabelValue ns
        timeoutSeconds objChan pre a hit post h1 h2 h3 h4 h5 h6 h7⟩

/-- C7 witness: events with 0, 0 and then 2 replicas inside a 30 second timeout:
both locators stop on the third event and return the first listed object. -/
theorem ReturnObject_first_positive_witness :
    ((ReturnDeploymentObject
        (clusterOf ⟨eventsOf [(1000000000, deploymentWith 0 0), (2000000000, deploymentWith 0 0),
          (3000000000, deploymentWith 2 0)], none⟩ [deploymentWith 2 1])
        "kubeconfig" "app.kubernetes.io/name" "argocd-server" "argocd" 30).received = 2 + 1 ∧
      (ReturnDeploymentObject
        (clusterOf ⟨eventsOf [(1000000000, deploymentWith 0 0), (2000000000, deploymentWith 0 0),
          (3000000000, deploymentWith 2 0)], none⟩ [deploymentWith 2 1])
        "kubeconfig" "app.kubernetes.io/name" "argocd-server" "argocd" 30).outcome
        = .returned (some (deploymentWith 2 1), none)) ∧
    ((ReturnStatefulSetObject
        (clusterOf ⟨eventsOf [(1000000000, statefulSetWith 0 0 0),
          (2000000000, statefulSetWith 0 0 0), (3000000000, statefulSetWith 2 0 1)], none⟩
          [statefulSetWith 2 1 2])
        "kubeconfig" "app.kubernetes.io/name" "vault" "vault" 30).received = 2 + 1 ∧
      (ReturnStatefulSetObject
        (clusterOf ⟨eventsOf [(1000000000, statefulSetWith 0 0 0),
          (2000000000, statefulSetWith 0 0 0), (3000000000, statefulSetWith 2 0 1)], none⟩
          [statefulSetWith 2 1 2])
        "kubeconfig" "app.kubernetes.io/name" "vault" "vault" 30).outcome
        = .returned (some (statefulSetWith 2 1 2), none)) :=
  have hD := ReturnObject_first_positive.1
    (clusterOf ⟨eventsOf [(1000000000, deploymentWith 0 0), (2000000000, deploymentWith 0 0),
      (3000000000, deploymentWith 2 0)], none⟩ [deploymentWith 2 1])
    "kubeconfig" "app.kubernetes.io/name" "argocd-server" "argocd" 30
    ⟨eventsOf [(1000000000, deploymentWith 0 0), (2000000000, deploymentWith 0 0),
      (3000000000, deploymentWith 2 0)], none⟩
    [(1000000000, deploymentWith 0 0), (2000000000, deploymentWith 0 0)] 3000000000
    (deploymentWith 2 0) [] rfl rfl rfl (by decide) (by decide) (by decide) (by decide)
  have hS := ReturnObject_first_positive.2
    (clusterOf ⟨eventsOf [(1000000000, statefulSetWith 0 0 0),
      (2000000000, statefulSetWith 0 0 0), (3000000000, statefulSetWith 2 0 1)], none⟩
      [statefulSetWith 2 1 2])
    "kubeconfig" "app.kubernetes.io/name" "vault" "vault" 30
    ⟨eventsOf [(1000000000, statefulSetWith 0 0 0),
      (2000000000, statefulSetWith 0 0 0), (3000000000, statefulSetWith 2 0 1)], none⟩
    [(1000000000, statefulSetWith 0 0 0), (2000000000, statefulSetWith 0 0 0)] 3000000000
    (statefulSetWith 2 0 1) [] rfl rfl rfl (by decide) (by decide) (by decide) (by decide)
  ⟨⟨hD.1, hD.2.2 (deploymentWith 2 1) [] rfl⟩, ⟨hS.1, hS.2.2 (statefulSetWith 2 1 2) [] rfl⟩⟩

/-! ## Requests sent by the readiness watcher -/

/-- A loop whose body sends no request sends none at all. -/
theorem watchLoop_calls_nil {α ρ : Type} (spec : LoopSpec α ρ) (d : Int) (tie : Nat → Bool)
    (closedAt : Option Nat) (hc : ∀ obj fin, spec.check obj = some fin → fin.calls = []) :
    ∀ evs now n, (watchLoop spec d tie closedAt evs now n).calls = [] := by
  intro evs
  induction evs with
  | nil =>
    intro now n
    unfold watchLoop
    cases closedAt with
    | none => rfl
    | some c =>
      simp only
      split
      · split <;> rfl
      · rfl
  | cons e rest ih =>
    intro now n
    obtain ⟨a, ev⟩ := e
    unfold watchLoop
    split
    · cases hobj : ev.Object with
      | none => rfl
      | some obj =>
        simp only
        cases hchk : spec.check obj with
        | none => exact ih _ _
        | some fin => exact hc obj fin hchk
    · rfl

theorem WaitForDeploymentReady_calls (c : Cluster Deployment) (kubeConfigPath : String)
    (deployment : Deployment) (timeoutSeconds : Int)
    (h : (WaitForDeploymentReady c kubeConfigPath deployment timeoutSeconds).outcome
      = .returned (true, none)) :
    (WaitForDeploymentReady c kubeConfigPath deployment timeoutSeconds).calls
      = [.watch .deployments deployment.Namespace
          { FieldSelector := "metadata.name=" ++ deployment.Name }] := by
  unfold WaitForDeploymentReady at h ⊢
  cases hcl : c.GetClientSet kubeConfigPath with
  | some err => simp [hcl] at h
  | none =>
    cases hw : c.watch deployment.Namespace
        { FieldSelector := "metadata.name=" ++ deployment.Name } with
    | error err => simp [hcl, hw] at h
    | ok objChan =>
      simp only [hw, Run.after]
      rw [watchLoop_calls_nil]
      · rfl
      · intro obj fin hfin
        simp only at hfin
        split at hfin
        · cases hfin; rfl
        · cases hfin

theorem WaitForPodReady_calls (c : Cluster Pod) (kubeConfigPath : String)
    (pod : Pod) (timeoutSeconds : Int)
    (h : (WaitForPodReady c kubeConfigPath pod timeoutSeconds).outcome
      = .returned (true, none)) :
    (WaitForPodReady c kubeConfigPath pod timeoutSeconds).calls
      = [.watch .pods pod.Namespace { FieldSelector := "metadata.name=" ++ pod.Name }] := by
  unfold WaitForPodReady at h ⊢
  cases hcl : c.GetClientSet kubeConfigPath with
  | some err => simp [hcl] at h
  | none =>
    cases hw : c.watch pod.Namespace { FieldSelector := "metadata.name=" ++ pod.Name } with
    | error err => simp [hcl, hw] at h
    | ok objChan =>
      simp only [hw, Run.after]
      rw [watchLoop_calls_nil]
      · rfl
      · intro obj fin hfin
        simp only at hfin
        split at hfin
        · cases hfin; rfl
        · cases hfin

theorem WaitForStatefulSetReady_calls (c : Cluster StatefulSet) (kubeConfigPath : String)
    (statefulset : StatefulSet) (timeoutSeconds : Int) (ignoreReady : Bool)
    (h : (WaitForStatefulSetReady c kubeConfigPath statefulset timeoutSeconds
      ignoreReady).outcome = .returned (true, none)) :
    (WaitForStatefulSetReady c kubeConfigPath statefulset timeoutSeconds ignoreReady).calls
      = [.watch .statefulSets statefulset.Namespace
          { FieldSelector := "metadata.name=" ++ statefulset.Name }] := by
  unfold WaitForStatefulSetReady at h ⊢
  cases hcl : c.GetClientSet kubeConfigPath with
  | some err => simp [hcl] at h
  | none =>
    cases hw : c.watch statefulset.Namespace
        { FieldSelector := "metadata.name=" ++ statefulset.Name } with
    | error err => simp [hcl, hw] at h
    | ok objChan =>
      simp only [hw, Run.after]
      rw [watchLoop_calls_nil]
      · rfl
      · intro obj fin hfin
        simp only at hfin
        split at hfin
        · split at hfin
          · cases hfin; rfl
          · cases hfin
        · split at hfin
          · cases hfin; rfl
          · cases hfin

/-- C8, as stated, fails: with 3 configured replicas and events reporting 1, 2
and 3 ready replicas, `WaitForDeploymentReady` ends Ready having sent the watch
request only; none of its requests is a list request, although the cluster has a
Deployment to list. -/
theorem WaitForDeploymentReady_ready_without_list :
    (WaitForDeploymentReady
        (clusterOf ⟨eventsOf [(1000000000, deploymentWith 3 1), (2000000000, deploymentWith 3 2),
          (3000000000, deploymentWith 3 3)], none⟩ [deploymentWith 3 3])
        "kubeconfig" (deploymentWith 3 0) 30).outcome = .returned (true, none) ∧
      (WaitForDeploymentReady
        (clusterOf ⟨eventsOf [(1000000000, deploymentWith 3 1), (2000000000, deploymentWith 3 2),
          (3000000000, deploymentWith 3 3)], none⟩ [deploymentWith 3 3])
        "kubeconfig" (deploymentWith 3 0) 30).calls.any ApiCall.isList = false := by
  refine ⟨by decide, by decide⟩

/-- C8, amended: a readiness call that ends Ready, that is returns `(true, nil)`,
has sent exactly one request to the cluster, the watch on the field selector
`metadata.name=<name>` in the object's namespace; it sends no list request, and
its result is the boolean alone. -/
theorem WaitForReady_sends_watch_only :
    (∀ (c : Cluster Deployment) (kubeConfigPath : String) (deployment : Deployment)
        (timeoutSeconds : Int),
        (WaitForDeploymentReady c kubeConfigPath deployment timeoutSeconds).outcome
          = .returned (true, none) →
        (WaitForDeploymentReady c kubeConfigPath deployment timeoutSeconds).calls
          = [.watch .deployments deployment.Namespace
              { FieldSelector := "metadata.name=" ++ deployment.Name }]) ∧
    (∀ (c : Cluster Pod) (kubeConfigPath : String) (pod : Pod) (timeoutSeconds : Int),
        (WaitForPodReady c kubeConfigPath pod timeoutSeconds).outcome
          = .returned (true, none) →
        (WaitForPodReady c kubeConfigPath pod timeoutSeconds).calls
          = [.watch .pods pod.Namespace { FieldSelector := "metadata.name=" ++ pod.Name }]) ∧
    (∀ (c : Cluster StatefulSet) (kubeConfigPath : String) (statefulset : StatefulSet)
        (timeoutSeconds : Int) (ignoreReady : Bool),
        (WaitForStatefulSetReady c kubeConfigPath statefulset timeoutSeconds
          ignoreReady).outcome = .returned (true, none) →
        (WaitForStatefulSetReady c kubeConfigPath statefulset timeoutSeconds
          ignoreReady).calls
          = [.watch .statefulSets statefulset.Namespace
              { FieldSelector := "metadata.name=" ++ statefulset.Name }]) :=
  ⟨WaitForDeploymentReady_calls, WaitForPodReady_calls, WaitForStatefulSetReady_calls⟩

/-- C8 witness: one Ready call of each kind, each with the watch as its only request. -/
theorem WaitForReady_sends_watch_only_witness :
    (WaitForDeploymentReady
        (clusterOf ⟨eventsOf [(1000000000, deploymentWith 3 3)], none⟩ [deploymentWith 3 3])
        "kubeconfig" (deploymentWith 3 0) 30).calls
        = [.watch .deployments (deploymentWith 3 0).Namespace
            { FieldSelector := "metadata.name=" ++ (deploymentWith 3 0).Name }] ∧
      (WaitForPodReady
        (clusterOf ⟨eventsOf [(1000000000, podIn "Running")], none⟩ [podIn "Running"])
        "kubeconfig" (podIn "Pending") 30).calls
        = [.watch .pods (podIn "Pending").Namespace
            { FieldSelector := "metadata.name=" ++ (podIn "Pending").Name }] ∧
      (WaitForStatefulSetReady
        (clusterOf ⟨eventsOf [(1000000000, statefulSetWith 3 3 3)], none⟩
          [statefulSetWith 3 3 3])
        "kubeconfig" (statefulSetWith 3 0 0) 30 false).calls
        = [.watch .statefulSets (statefulSetWith 3 0 0).Namespace
            { FieldSelector := "metadata.name=" ++ (statefulSetWith 3 0 0).Name }] :=
  ⟨WaitForReady_sends_watch_only.1 _ "kubeconfig" (deploymentWith 3 0) 30 (by decide),
    WaitForReady_sends_watch_only.2.1 _ "kubeconfig" (podIn "Pending") 30 (by decide),
    WaitForReady_sends_watch_only.2.2 _ "kubeconfig" (statefulSetWith 3 0 0) 30 false
      (by decide)⟩

/-! ## Remote exec session -/

/-- C9: when `exec.Stream` returns an error, `log.Fatal()` ends the process before
the deferred `terminal.Restore` can run: a terminal that was in cooked mode before
the call is left in raw mode and the restore is run zero times. When streaming
succeeds the restore runs once and the terminal is back in cooked mode. -/
theorem PodExecSession_stream_failure_leaves_raw :
    (PodExecSession (execEnvOf none none (some "stream closed")) .cooked "kubeconfig"
        (sessionOf true) false).outcome = .exited ∧
      (PodExecSession (execEnvOf none none (some "stream closed")) .cooked "kubeconfig"
        (sessionOf true) false).terminal = .raw ∧
      (PodExecSession (execEnvOf none none (some "stream closed")) .cooked "kubeconfig"
        (sessionOf true) false).makeRawCalls = 1 ∧
      (PodExecSession (execEnvOf none none (some "stream closed")) .cooked "kubeconfig"
        (sessionOf true) false).restoreCalls = 0 ∧
      (PodExecSession (execEnvOf none none none) .cooked "kubeconfig"
        (sessionOf true) false).terminal = .cooked ∧
      (PodExecSession (execEnvOf none none none) .cooked "kubeconfig"
        (sessionOf true) false).restoreCalls = 1 := by
  refine ⟨by decide, by decide, by decide, by decide, by decide, by decide⟩

/-- C10, as stated, fails: when the stream negotiation fails, when the raw-mode
switch fails and when the streaming fails, `PodExecSession` returns no error to
its caller. -/
theorem PodExecSession_failure_not_returned :
    (¬ ∃ err, (PodExecSession (execEnvOf (some "unable to upgrade connection") none none)
        .cooked "kubeconfig" (sessionOf true) false).outcome = .returned (some err)) ∧
      (¬ ∃ err, (PodExecSession (execEnvOf none (some "inappropriate ioctl for device") none)
        .cooked "kubeconfig" (sessionOf true) false).outcome = .returned (some err)) ∧
      (¬ ∃ err, (PodExecSession (execEnvOf none none (some "command terminated"))
        .cooked "kubeconfig" (sessionOf true) false).outcome = .returned (some err)) := by
  refine ⟨?_, ?_, ?_⟩ <;> rintro ⟨err, h⟩ <;> cases h

/-- C10, amended: with the client and the REST config built, a failure of the
stream negotiation, of the raw-mode switch or of the streaming is logged at fatal
level and ends the process (`log.Fatal()`), so that nothing is returned to the
caller; and `PodExecSession` returns nil only when the negotiation, the raw-mode
switch and the streaming all completed without error. -/
theorem PodExecSession_failure_is_fatal (env : ExecEnv) (term : TermMode)
    (kubeConfigPath : String) (p : PodSessionOptions) (silent : Bool) :
    (env.GetClientSet kubeConfigPath = none → env.GetClientConfig kubeConfigPath = none →
      (env.NewSPDYExecutor p.PodName p.Namespace
          { Stdin := p.Stdin, Stdout := p.Stdout, Stderr := p.Stderr, TTY := p.TtyEnabled,
            Command := p.Command } ≠ none ∨
        env.MakeRaw ≠ none ∨
        env.Stream { Stdin := .osStdin,
                     Stdout := if silent then LocalStream.discard else LocalStream.osStdout,
                     Stderr := .osStderr, Tty := p.TtyEnabled } ≠ none) →
      (PodExecSession env term kubeConfigPath p silent).outcome = .exited ∧
        ∃ msg, (PodExecSession env term kubeConfigPath p silent).logs = [⟨.fatal, msg⟩]) ∧
    ((PodExecSession env term kubeConfigPath p silent).outcome = .returned none →
      env.NewSPDYExecutor p.PodName p.Namespace
          { Stdin := p.Stdin, Stdout := p.Stdout, Stderr := p.Stderr, TTY := p.TtyEnabled,
            Command := p.Command } = none ∧
        env.MakeRaw = none ∧
        env.Stream { Stdin := .osStdin,
                     Stdout := if silent then LocalStream.discard else LocalStream.osStdout,
                     Stderr := .osStderr, Tty := p.TtyEnabled } = none) := by
  unfold PodExecSession podExec
  constructor
  · intro hcl hcfg hfail
    simp only [hcl, hcfg]
    cases hneg : env.NewSPDYExecutor p.PodName p.Namespace
        { Stdin := p.Stdin, Stdout := p.Stdout, Stderr := p.Stderr, TTY := p.TtyEnabled,
          Command := p.Command } with
    | some err => exact ⟨rfl, _, rfl⟩
    | none =>
      cases hraw : env.MakeRaw with
      | some err => exact ⟨rfl, _, rfl⟩
      | none =>
        cases hstr : env.Stream (StreamOptions.mk .osStdin
            (if silent then LocalStream.discard else LocalStream.osStdout)
            .osStderr p.TtyEnabled) with
        | some err => simp [hstr]
        | none => simp [hneg, hraw, hstr] at hfail
  · intro h
    cases hcl : env.GetClientSet kubeConfigPath with
    | some err => simp [hcl] at h
    | none =>
      cases hcfg : env.GetClientConfig kubeConfigPath with
      | some err => simp [hcl, hcfg] at h
      | none =>
        cases hneg : env.NewSPDYExecutor p.PodName p.Namespace
            { Stdin := p.Stdin, Stdout := p.Stdout, Stderr := p.Stderr, TTY := p.TtyEnabled,
              Command := p.Command } with
        | some err => simp [hcl, hcfg, hneg] at h
        | none =>
          cases hraw : env.MakeRaw with
          | some err => simp [hcl, hcfg, hneg, hraw] at h
          | none =>
            cases hstr : env.Stream (StreamOptions.mk .osStdin
                (if silent then LocalStream.discard else LocalStream.osStdout)
                .osStderr p.TtyEnabled) with
            | some err => simp [hcl, hcfg, hneg, hraw, hstr] at h
            | none => exact ⟨rfl, rfl, rfl⟩

/-- C10 witness: a session whose streaming fails ends the process with one fatal
log line. -/
theorem PodExecSession_failure_is_fatal_witness :
    (PodExecSession (execEnvOf none none (some "command terminated")) .cooked "kubeconfig"
        (sessionOf true) false).outcome = .exited ∧
      ∃ msg, (PodExecSession (execEnvOf none none (some "command terminated")) .cooked
        "kubeconfig" (sessionOf true) false).logs = [⟨.fatal, msg⟩] :=
  (PodExecSession_failure_is_fatal (execEnvOf none none (some "command terminated")) .cooked
    "kubeconfig" (sessionOf true) false).1 rfl rfl (Or.inr (Or.inr (by decide)))

/-- C11, as stated, fails: with the TTY flag unset `PodExecSession` still calls
`terminal.MakeRaw(0)`, and when the streaming then fails the terminal, cooked
before the call, is left in raw mode. -/
theorem PodExecSession_raw_mode_without_tty :
    (PodExecSession (execEnvOf none none none) .cooked "kubeconfig"
        (sessionOf false) false).makeRawCalls = 1 ∧
      (PodExecSession (execEnvOf none none (some "stream closed")) .cooked "kubeconfig"
        (sessionOf false) false).terminal = .raw := by
  refine ⟨by decide, by decide⟩

/-- C11, amended: once the client and the REST config are built and the stream is
negotiated, `PodExecSession` calls `terminal.MakeRaw(0)` exactly once whatever the
TTY flag of the descriptor; the flag is only handed on, as the `Tty` field of the
stream options, when the raw-mode switch succeeded. -/
theorem PodExecSession_raw_mode_always (env : ExecEnv) (term : TermMode)
    (kubeConfigPath : String) (p : PodSessionOptions) (silent : Bool)
    (hclient : env.GetClientSet kubeConfigPath = none)
    (hconfig : env.GetClientConfig kubeConfigPath = none)
    (hnegotiated : env.NewSPDYExecutor p.PodName p.Namespace
      { Stdin := p.Stdin, Stdout := p.Stdout, Stderr := p.Stderr, TTY := p.TtyEnabled,
        Command := p.Command } = none) :
    (PodExecSession env term kubeConfigPath p silent).makeRawCalls = 1 ∧
      (env.MakeRaw = none →
        ∃ opts, (PodExecSession env term kubeConfigPath p silent).streamed = some opts ∧
          opts.Tty = p.TtyEnabled) := by
  unfold PodExecSession podExec
  simp only [hclient, hconfig, hnegotiated]
  cases hraw : env.MakeRaw with
  | some err => exact ⟨rfl, fun h => by cases h⟩
  | none =>
    simp only
    cases hstr : env.Stream (StreamOptions.mk .osStdin
        (if silent then LocalStream.discard else LocalStream.osStdout)
        .osStderr p.TtyEnabled) with
    | some err => exact ⟨rfl, fun _ => ⟨_, rfl, rfl⟩⟩
    | none => exact ⟨rfl, fun _ => ⟨_, rfl, rfl⟩⟩

/-- C11 witness: a session without TTY switches the terminal once and streams with
`Tty` unset. -/
theorem PodExecSession_raw_mode_always_witness :
    (PodExecSession (execEnvOf none none none) .cooked "kubeconfig"
        (sessionOf false) true).makeRawCalls = 1 ∧
      ((execEnvOf none none none).MakeRaw = none →
        ∃ opts, (PodExecSession (execEnvOf none none none) .cooked "kubeconfig"
          (sessionOf false) true).streamed = some opts ∧ opts.Tty = (sessionOf false).TtyEnabled) :=
  PodExecSession_raw_mode_always (execEnvOf none none none) .cooked "kubeconfig"
    (sessionOf false) true rfl rfl rfl

/-- C12: when `PodExecSession` reaches the streaming, that is when client, REST
config, negotiation and raw-mode switch succeeded, it streams with the remote
standard output sent to the discarding writer if `silent` is set and to the local
standard output otherwise, and with the remote error stream sent to the local
error stream in both cases; it never streams with other options. -/
theorem PodExecSession_silent_output (env : ExecEnv) (term : TermMode)
    (kubeConfigPath : String) (p : PodSessionOptions) (silent : Bool) :
    (env.GetClientSet kubeConfigPath = none → env.GetClientConfig kubeConfigPath = none →
      env.NewSPDYExecutor p.PodName p.Namespace
        { Stdin := p.Stdin, Stdout := p.Stdout, Stderr := p.Stderr, TTY := p.TtyEnabled,
          Command := p.Command } = none →
      env.MakeRaw = none →
      (PodExecSession env term kubeConfigPath p silent).streamed
        = some { Stdin := .osStdin,
                 Stdout := if silent then LocalStream.discard else LocalStream.osStdout,
                 Stderr := .osStderr, Tty := p.TtyEnabled }) ∧
    (∀ opts, (PodExecSession env term kubeConfigPath p silent).streamed = some opts →
      opts.Stdout = (if silent then LocalStream.discard else LocalStream.osStdout) ∧
        opts.Stderr = LocalStream.osStderr) := by
  unfold PodExecSession podExec
  constructor
  · intro hcl hcfg hneg hraw
    simp only [hcl, hcfg, hneg, hraw]
    split <;> rfl
  · intro opts h
    cases hcl : env.GetClientSet kubeConfigPath with
    | some err => simp [hcl] at h
    | none =>
      cases hcfg : env.GetClientConfig kubeConfigPath with
      | some err => simp [hcl, hcfg] at h
      | none =>
        cases hneg : env.NewSPDYExecutor p.PodName p.Namespace
            (PodExecOptions.mk p.Stdin p.Stdout p.Stderr p.TtyEnabled p.Command) with
        | some err => simp [hcl, hcfg, hneg] at h
        | none =>
          cases hraw : env.MakeRaw with
          | some err => simp [hcl, hcfg, hneg, hraw] at h
          | none =>
            simp only [hcl, hcfg, hneg, hraw] at h
            split at h <;> (simp only [Option.some.injEq] at h; subst h; exact ⟨rfl, rfl⟩)

/-- C12 witness: a silent session streams its output to the discarding writer and
its error stream to the local error stream. -/
theorem PodExecSession_silent_output_witness :
    (PodExecSession (execEnvOf none none none) .cooked "kubeconfig" (sessionOf true) true).streamed
      = some { Stdin := .osStdin, Stdout := .discard, Stderr := .osStderr, Tty := true } :=
  (PodExecSession_silent_output (execEnvOf none none none) .cooked "kubeconfig"
    (sessionOf true) true).1 rfl rfl rfl rfl

/-! ## Connection errors -/

/-- C13: when `GetClientSet` fails with error `e`, each of the three readiness
calls returns `(false, e)` and each of the three locators returns `(nil, e)`,
having sent no request (no watch, no list) and logged nothing; when `GetClientSet`
or, after it, `GetClientConfig` fails with `e`, `PodExecSession` returns `e` with
the terminal in its pre-call mode, no raw-mode switch, no restore and no stream. -/
theorem connection_error_returned_at_once :
    (∀ (c : Cluster Deployment) (kubeConfigPath : String) (deployment : Deployment)
        (timeoutSeconds : Int) (e : String), c.GetClientSet kubeConfigPath = some e →
        (WaitForDeploymentReady c kubeConfigPath deployment timeoutSeconds).outcome
          = .returned (false, some e) ∧
        (WaitForDeploymentReady c kubeConfigPath deployment timeoutSeconds).calls = [] ∧
        (WaitForDeploymentReady c kubeConfigPath deployment timeoutSeconds).logs = []) ∧
    (∀ (c : Cluster Pod) (kubeConfigPath : String) (pod : Pod)
        (timeoutSeconds : Int) (e : String), c.GetClientSet kubeConfigPath = some e →
        (WaitForPodReady c kubeConfigPath pod timeoutSeconds).outcome
          = .returned (false, some e) ∧
        (WaitForPodReady c kubeConfigPath pod timeoutSeconds).calls = [] ∧
        (WaitForPodReady c kubeConfigPath pod timeoutSeconds).logs = []) ∧
    (∀ (c : Cluster StatefulSet) (kubeConfigPath : String) (statefulset : StatefulSet)
        (timeoutSeconds : Int) (ignoreReady : Bool) (e : String),
        c.GetClientSet kubeConfigPath = some e →
        (WaitForStatefulSetReady c kubeConfigPath statefulset timeoutSeconds
          ignoreReady).outcome = .returned (false, some e) ∧
        (WaitForStatefulSetReady c kubeConfigPath statefulset timeoutSeconds
          ignoreReady).calls = [] ∧
        (WaitForStatefulSetReady c kubeConfigPath statefulset timeoutSeconds
          ignoreReady).logs = []) ∧
    (∀ (c : Cluster Deployment) (kubeConfigPath matchLabel matchLabelValue ns : String)
        (timeoutSeconds : Int) (e : String), c.GetClientSet kubeConfigPath = some e →
        (ReturnDeploymentObject c kubeConfigPath matchLabel matchLabelValue ns
          timeoutSeconds).outcome = .returned (none, some e) ∧
        (ReturnDeploymentObject c kubeConfigPath matchLabel matchLabelValue ns
          timeoutSeconds).calls = [] ∧
        (ReturnDeploymentObject c kubeConfigPath matchLabel matchLabelValue ns
          timeoutSeconds).logs = []) ∧
    (∀ (c : Cluster Pod) (kubeConfigPath matchLabel matchLabelValue ns : String)
        (timeoutSeconds : Int) (e : String), c.GetClientSet kubeConfigPath = some e →
        (ReturnPodObject c kubeConfigPath matchLabel matchLabelValue ns
          timeoutSeconds).outcome = .returned (none, some e) ∧
        (ReturnPodObject c kubeConfigPath matchLabel matchLabelValue ns
          timeoutSeconds).calls = [] ∧
        (ReturnPodObject c kubeConfigPath matchLabel matchLabelValue ns
          timeoutSeconds).logs = []) ∧
    (∀ (c : Cluster StatefulSet) (kubeConfigPath matchLabel matchLabelValue ns : String)
        (timeoutSeconds : Int) (e : String), c.GetClientSet kubeConfigPath = some e →
        (ReturnStatefulSetObject c kubeConfigPath matchLabel matchLabelValue ns
          timeoutSeconds).outcome = .returned (none, some e) ∧
        (ReturnStatefulSetObject c kubeConfigPath matchLabel matchLabelValue ns
          timeoutSeconds).calls = [] ∧
        (ReturnStatefulSetObject c kubeConfigPath matchLabel matchLabelValue ns
          timeoutSeconds).logs = []) ∧
    (∀ (env : ExecEnv) (term : TermMode) (kubeConfigPath : String) (p : PodSessionOptions)
        (silent : Bool) (e : String),
        (env.GetClientSet kubeConfigPath = some e ∨
          (env.GetClientSet kubeConfigPath = none ∧
            env.GetClientConfig kubeConfigPath = some e)) →
        (PodExecSession env term kubeConfigPath p silent).outcome = .returned (some e) ∧
        (PodExecSession env term kubeConfigPath p silent).terminal = term ∧
        (PodExecSession env term kubeConfigPath p silent).makeRawCalls = 0 ∧
        (PodExecSession env term kubeConfigPath p silent).restoreCalls = 0 ∧
        (PodExecSession env term kubeConfigPath p silent).streamed = none ∧
        (PodExecSession env term kubeConfigPath p silent).logs = []) := by
  refine ⟨?_, ?_, ?_, ?_, ?_, ?_, ?_⟩
  · intro c kubeConfigPath deployment timeoutSeconds e h
    simp [WaitForDeploymentReady, h]
  · intro c kubeConfigPath pod timeoutSeconds e h
    simp [WaitForPodReady, h]
  · intro c kubeConfigPath statefulset timeoutSeconds ignoreReady e h
    simp [WaitForStatefulSetReady, h]
  · intro c kubeConfigPath matchLabel matchLabelValue ns timeoutSeconds e h
    simp [ReturnDeploymentObject, h]
  · intro c kubeConfigPath matchLabel matchLabelValue ns timeoutSeconds e h
    simp [ReturnPodObject, h]
  · intro c kubeConfigPath matchLabel matchLabelValue ns timeoutSeconds e h
    simp [ReturnStatefulSetObject, h]
  · intro env term kubeConfigPath p silent e h
    rcases h with h | ⟨h1, h2⟩
    · simp [PodExecSession, podExec, h]
    · simp [PodExecSession, podExec, h1, h2]

/-- C13 witness: with a kubeconfig that cannot be loaded, a readiness call, a
locator and an exec session hand the error back and do nothing else. -/
theorem connection_error_returned_at_once_witness :
    ((WaitForDeploymentReady (clusterWithoutClient "invalid configuration") "kubeconfig"
        (deploymentWith 3 0) 30).outcome = .returned (false, some "invalid configuration") ∧
      (WaitForDeploymentReady (clusterWithoutClient "invalid configuration") "kubeconfig"
        (deploymentWith 3 0) 30).calls = [] ∧
      (WaitForDeploymentReady (clusterWithoutClient "invalid configuration") "kubeconfig"
        (deploymentWith 3 0) 30).logs = []) ∧
    ((ReturnPodObject (clusterWithoutClient "invalid configuration") "kubeconfig"
        "app.kubernetes.io/name" "vault" "vault" 30).outcome
          = .returned (none, some "invalid configuration") ∧
      (ReturnPodObject (clusterWithoutClient "invalid configuration") "kubeconfig"
        "app.kubernetes.io/name" "vault" "vault" 30).calls = [] ∧
      (ReturnPodObject (clusterWithoutClient "invalid configuration") "kubeconfig"
        "app.kubernetes.io/name" "vault" "vault" 30).logs = []) ∧
    ((PodExecSession (execEnvWithout none (some "invalid configuration")) .cooked "kubeconfig"
        (sessionOf true) false).outcome = .returned (some "invalid configuration") ∧
      (PodExecSession (execEnvWithout none (some "invalid configuration")) .cooked "kubeconfig"
        (sessionOf true) false).terminal = .cooked ∧
      (PodExecSession (execEnvWithout none (some "invalid configuration")) .cooked "kubeconfig"
        (sessionOf true) false).makeRawCalls = 0 ∧
      (PodExecSession (execEnvWithout none (some "invalid configuration")) .cooked "kubeconfig"
        (sessionOf true) false).restoreCalls = 0 ∧
      (PodExecSession (execEnvWithout none (some "invalid configuration")) .cooked "kubeconfig"
        (sessionOf true) false).streamed = none ∧
      (PodExecSession (execEnvWithout none (some "invalid configuration")) .cooked "kubeconfig"
        (sessionOf true) false).logs = []) :=
  ⟨connection_error_returned_at_once.1 (clusterWithoutClient "invalid configuration")
      "kubeconfig" (deploymentWith 3 0) 30 "invalid configuration" rfl,
    connection_error_returned_at_once.2.2.2.2.1 (clusterWithoutClient "invalid configuration")
      "kubeconfig" "app.kubernetes.io/name" "vault" "vault" 30 "invalid configuration" rfl,
    connection_error_returned_at_once.2.2.2.2.2.2
      (execEnvWithout none (some "invalid configuration")) .cooked "kubeconfig"
      (sessionOf true) false "invalid configuration" (Or.inr ⟨rfl, rfl⟩)⟩

/-! ## Timeout messages -/

/-- The four ways in which the loop ends. -/
theorem watchLoop_outcome_cases {α ρ : Type} (spec : LoopSpec α ρ) (d : Int)
    (tie : Nat → Bool) (closedAt : Option Nat) :
    ∀ evs now n,
      (watchLoop spec d tie closedAt evs now n).outcome = .returned spec.timeoutValue ∨
      (watchLoop spec d tie closedAt evs now n).outcome = .exited ∨
      (watchLoop spec d tie closedAt evs now n).outcome = .panicked ∨
      ∃ obj fin, spec.check obj = some fin ∧
        (watchLoop spec d tie closedAt evs now n).outcome = fin.outcome := by
  intro evs
  induction evs with
  | nil =>
    intro now n
    unfold watchLoop
    cases closedAt with
    | none => exact Or.inl rfl
    | some c =>
      simp only
      split
      · split
        · exact Or.inr (Or.inl rfl)
        · exact Or.inr (Or.inr (Or.inl rfl))
      · exact Or.inl rfl
  | cons e rest ih =>
    intro now n
    obtain ⟨a, ev⟩ := e
    unfold watchLoop
    split
    · cases hobj : ev.Object with
      | none => exact Or.inr (Or.inr (Or.inl rfl))
      | some obj =>
        simp only
        cases hchk : spec.check obj with
        | none => exact ih _ _
        | some fin => exact Or.inr (Or.inr (Or.inr ⟨obj, fin, hchk, rfl⟩))
    · exact Or.inl rfl

/-- The list step of a locator never returns an error value. -/
theorem listFirst_no_error {α : Type} (c : Cluster α) (kind : Kind) (ns : String)
    (opts : ListOptions) (fatalMsg : String) (x : Option α) (msg : String) :
    (listFirst c kind ns opts fatalMsg).outcome ≠ .returned (x, some msg) := by
  unfold listFirst
  split <;> simp

theorem WaitForDeploymentReady_error_message (c : Cluster Deployment)
    (kubeConfigPath : String) (deployment : Deployment) (timeoutSeconds : Int) (b : Bool)
    (msg : String) (hclient : c.GetClientSet kubeConfigPath = none)
    (h : (WaitForDeploymentReady c kubeConfigPath deployment timeoutSeconds).outcome
      = .returned (b, some msg)) :
    msg = "The Deployment was not ready within the timeout period." := by
  simp only [WaitForDeploymentReady, hclient] at h
  split at h
  · cases h
  · simp only [Run.after] at h
    generalize hS : LoopSpec.mk _ _ _ _ _ = S at h
    rcases watchLoop_outcome_cases S _ _ _ _ _ _ with h1 | h1 | h1 | ⟨obj, fin, hc, h1⟩
    · rw [h1, ← hS] at h
      simp only [Outcome.returned.injEq, Prod.mk.injEq, Option.some.injEq] at h
      exact h.2.symm
    · rw [h1] at h; cases h
    · rw [h1] at h; cases h
    · rw [h1] at h
      rw [← hS] at hc
      simp only at hc
      split at hc
      · cases hc; cases h
      · cases hc

theorem WaitForPodReady_error_message (c : Cluster Pod)
    (kubeConfigPath : String) (pod : Pod) (timeoutSeconds : Int) (b : Bool)
    (msg : String) (hclient : c.GetClientSet kubeConfigPath = none)
    (h : (WaitForPodReady c kubeConfigPath pod timeoutSeconds).outcome
      = .returned (b, some msg)) :
    msg = "The operation timed out while waiting for the Pod to become ready." := by
  simp only [WaitForPodReady, hclient] at h
  split at h
  · cases h
  · simp only [Run.after] at h
    generalize hS : LoopSpec.mk _ _ _ _ _ = S at h
    rcases watchLoop_outcome_cases S _ _ _ _ _ _ with h1 | h1 | h1 | ⟨obj, fin, hc, h1⟩
    · rw [h1, ← hS] at h
      simp only [Outcome.returned.injEq, Prod.mk.injEq, Option.some.injEq] at h
      exact h.2.symm
    · rw [h1] at h; cases h
    · rw [h1] at h; cases h
    · rw [h1] at h
      rw [← hS] at hc
      simp only at hc
      split at hc
      · cases hc; cases h
      · cases hc

theorem WaitForStatefulSetReady_error_message (c : Cluster StatefulSet)
    (kubeConfigPath : String) (statefulset : StatefulSet) (timeoutSeconds : Int) (ignoreReady : Bool) (b : Bool)
    (msg : String) (hclient : c.GetClientSet kubeConfigPath = none)
    (h : (WaitForStatefulSetReady c kubeConfigPath statefulset timeoutSeconds ignoreReady).outcome
      = .returned (b, some msg)) :
    msg = "The StatefulSet was not ready within the timeout period." := by
  simp only [WaitForStatefulSetReady, hclient] at h
  split at h
  · cases h
  · simp only [Run.after] at h
    generalize hS : LoopSpec.mk _ _ _ _ _ = S at h
    rcases watchLoop_outcome_cases S _ _ _ _ _ _ with h1 | h1 | h1 | ⟨obj, fin, hc, h1⟩
    · rw [h1, ← hS] at h
      simp only [Outcome.returned.injEq, Prod.mk.injEq, Option.some.injEq] at h
      exact h.2.symm
    · rw [h1] at h; cases h
    · rw [h1] at h; cases h
    · rw [h1] at h
      rw [← hS] at hc
      simp only at hc
      split at hc
      · split at hc
        · cases hc; cases h
        · cases hc
      · split at hc
        · cases hc; cases h
        · cases hc

theorem ReturnDeploymentObject_error_message (c : Cluster Deployment)
    (kubeConfigPath matchLabel matchLabelValue ns : String) (timeoutSeconds : Int)
    (x : Option Deployment) (msg : String) (hclient : c.GetClientSet kubeConfigPath = none)
    (h : (ReturnDeploymentObject c kubeConfigPath matchLabel matchLabelValue ns timeoutSeconds).outcome
      = .returned (x, some msg)) :
    msg = "The Deployment was not created within the timeout period." := by
  simp only [ReturnDeploymentObject, hclient] at h
  split at h
  · cases h
  · simp only [Run.after] at h
    generalize hS : LoopSpec.mk _ _ _ _ _ = S at h
    rcases watchLoop_outcome_cases S _ _ _ _ _ _ with h1 | h1 | h1 | ⟨obj, fin, hc, h1⟩
    · rw [h1, ← hS] at h
      simp only [Outcome.returned.injEq, Prod.mk.injEq, Option.some.injEq] at h
      exact h.2.symm
    · rw [h1] at h; cases h
    · rw [h1] at h; cases h
    · rw [h1] at h
      rw [← hS] at hc
      simp only at hc
      split at hc
      · cases hc; exact absurd h (listFirst_no_error _ _ _ _ _ _ _)
      · cases hc

theorem ReturnPodObject_error_message (c : Cluster Pod)
    (kubeConfigPath matchLabel matchLabelValue ns : String) (timeoutSeconds : Int)
    (x : Option Pod) (msg : String) (hclient : c.GetClientSet kubeConfigPath = none)
    (h : (ReturnPodObject c kubeConfigPath matchLabel matchLabelValue ns timeoutSeconds).outcome
      = .returned (x, some msg)) :
    msg = "The Pod was not created within the timeout period." := by
  simp only [ReturnPodObject, hclient] at h
  split at h
  · cases h
  · simp only [Run.after] at h
    generalize hS : LoopSpec.mk _ _ _ _ _ = S at h
    rcases watchLoop_outcome_cases S _ _ _ _ _ _ with h1 | h1 | h1 | ⟨obj, fin, hc, h1⟩
    · rw [h1, ← hS] at h
      simp only [Outcome.returned.injEq, Prod.mk.injEq, Option.some.injEq] at h
      exact h.2.symm
    · rw [h1] at h; cases h
    · rw [h1] at h; cases h
    · rw [h1] at h
      rw [← hS] at hc
      simp only at hc
      split at hc
      · cases hc; exact absurd h (listFirst_no_error _ _ _ _ _ _ _)
      · split at hc
        · cases hc; exact absurd h (listFirst_no_error _ _ _ _ _ _ _)
        · cases hc

theorem ReturnStatefulSetObject_error_message (c : Cluster StatefulSet)
    (kubeConfigPath matchLabel matchLabelValue ns : String) (timeoutSeconds : Int)
    (x : Option StatefulSet) (msg : String) (hclient : c.GetClientSet kubeConfigPath = none)
    (h : (ReturnStatefulSetObject c kubeConfigPath matchLabel matchLabelValue ns timeoutSeconds).outcome
      = .returned (x, some msg)) :
    msg = "The StatefulSet was not created within the timeout period." := by
  simp only [ReturnStatefulSetObject, hclient] at h
  split at h
  · cases h
  · simp only [Run.after] at h
    generalize hS : LoopSpec.mk _ _ _ _ _ = S at h
    rcases watchLoop_outcome_cases S _ _ _ _ _ _ with h1 | h1 | h1 | ⟨obj, fin, hc, h1⟩
    · rw [h1, ← hS] at h
      simp only [Outcome.returned.injEq, Prod.mk.injEq, Option.some.injEq] at h
      exact h.2.symm
    · rw [h1] at h; cases h
    · rw [h1] at h; cases h
    · rw [h1] at h
      rw [← hS] at hc
      simp only at hc
      split at hc
      · cases hc; exact absurd h (listFirst_no_error _ _ _ _ _ _ _)
      · cases hc

/-- C14, as stated, fails: `WaitForDeploymentReady` on the Deployment
`argocd-server` and `ReturnPodObject` on the label value `vault` time out with
messages in which the target does not occur. -/
theorem timeout_message_without_target :
    (WaitForDeploymentReady (clusterOf ⟨[], none⟩ []) "kubeconfig" (deploymentWith 3 0) 2).outcome
        = .returned (false, some "The Deployment was not ready within the timeout period.") ∧
      occursIn (deploymentWith 3 0).Name.toList
        "The Deployment was not ready within the timeout period.".toList = false ∧
      (ReturnPodObject (clusterOf ⟨[], none⟩ []) "kubeconfig" "app.kubernetes.io/name" "vault"
        "vault" 2).outcome
        = .returned (none, some "The Pod was not created within the timeout period.") ∧
      occursIn "vault".toList
        "The Pod was not created within the timeout period.".toList = false := by
  refine ⟨by decide, by decide, by decide, by decide⟩

/-- C14, amended: once the client is built, every error returned by a wait or
locate call is that of the timeout case, and its message is a fixed text of the
function that names the resource kind (Deployment, Pod or StatefulSet) and nothing
of the call's arguments. -/
theorem timeout_message_fixed :
    (∀ (c : Cluster Deployment) (kubeConfigPath : String) (deployment : Deployment)
        (timeoutSeconds : Int) (b : Bool) (msg : String),
        c.GetClientSet kubeConfigPath = none →
        (WaitForDeploymentReady c kubeConfigPath deployment timeoutSeconds).outcome
          = .returned (b, some msg) →
        msg = "The Deployment was not ready within the timeout period." ∧
          occursIn "Deployment".toList msg.toList = true) ∧
    (∀ (c : Cluster Pod) (kubeConfigPath : String) (pod : Pod)
        (timeoutSeconds : Int) (b : Bool) (msg : String),
        c.GetClientSet kubeConfigPath = none →
        (WaitForPodReady c kubeConfigPath pod timeoutSeconds).outcome
          = .returned (b, some msg) →
        msg = "The operation timed out while waiting for the Pod to become ready." ∧
          occursIn "Pod".toList msg.toList = true) ∧
    (∀ (c : Cluster StatefulSet) (kubeConfigPath : String) (statefulset : StatefulSet)
        (timeoutSeconds : Int) (ignoreReady : Bool) (b : Bool) (msg : String),
        c.GetClientSet kubeConfigPath = none →
        (WaitForStatefulSetReady c kubeConfigPath statefulset timeoutSeconds ignoreReady).outcome
          = .returned (b, some msg) →
        msg = "The StatefulSet was not ready within the timeout period." ∧
          occursIn "StatefulSet".toList msg.toList = true) ∧
    (∀ (c : Cluster Deployment) (kubeConfigPath matchLabel matchLabelValue ns : String)
        (timeoutSeconds : Int) (x : Option Deployment) (msg : String),
        c.GetClientSet kubeConfigPath = none →
        (ReturnDeploymentObject c kubeConfigPath matchLabel matchLabelValue ns timeoutSeconds).outcome
          = .returned (x, some msg) →
        msg = "The Deployment was not created within the timeout period." ∧
          occursIn "Deployment".toList msg.toList = true) ∧
    (∀ (c : Cluster Pod) (kubeConfigPath matchLabel matchLabelValue ns : String)
        (timeoutSeconds : Int) (x : Option Pod) (msg : String),
        c.GetClientSet kubeConfigPath = none →
        (ReturnPodObject c kubeConfigPath matchLabel matchLabelValue ns timeoutSeconds).outcome
          = .returned (x, some msg) →
        msg = "The Pod was not created within the timeout period." ∧
          occursIn "Pod".toList msg.toList = true) ∧
    (∀ (c : Cluster StatefulSet) (kubeConfigPath matchLabel matchLabelValue ns : String)
        (timeoutSeconds : Int) (x : Option StatefulSet) (msg : String),
        c.GetClientSet kubeConfigPath = none →
        (ReturnStatefulSetObject c kubeConfigPath matchLabel matchLabelValue ns timeoutSeconds).outcome
          = .returned (x, some msg) →
        msg = "The StatefulSet was not created within the timeout period." ∧
          occursIn "StatefulSet".toList msg.toList = true) := by
  refine ⟨?_, ?_, ?_, ?_, ?_, ?_⟩
  · intro c kubeConfigPath deployment timeoutSeconds b msg hclient h
    have hm := WaitForDeploymentReady_error_message c kubeConfigPath deployment timeoutSeconds b msg hclient h
    subst hm
    exact ⟨rfl, by decide⟩
  · intro c kubeConfigPath pod timeoutSeconds b msg hclient h
    have hm := WaitForPodReady_error_message c kubeConfigPath pod timeoutSeconds b msg hclient h
    subst hm
    exact ⟨rfl, by decide⟩
  · intro c kubeConfigPath statefulset timeoutSeconds ignoreReady b msg hclient h
    have hm := WaitForStatefulSetReady_error_message c kubeConfigPath statefulset timeoutSeconds ignoreReady b msg hclient h
    subst hm
    exact ⟨rfl, by decide⟩
  · intro c kubeConfigPath matchLabel matchLabelValue ns timeoutSeconds x msg hclient h
    have hm := ReturnDeploymentObject_error_message c kubeConfigPath matchLabel matchLabelValue ns timeoutSeconds x msg hclient h
    subst hm
    exact ⟨rfl, by decide⟩
  · intro c kubeConfigPath matchLabel matchLabelValue ns timeoutSeconds x msg hclient h
    have hm := ReturnPodObject_error_message c kubeConfigPath matchLabel matchLabelValue ns timeoutSeconds x msg hclient h
    subst hm
    exact ⟨rfl, by decide⟩
  · intro c kubeConfigPath matchLabel matchLabelValue ns timeoutSeconds x msg hclient h
    have hm := ReturnStatefulSetObject_error_message c kubeConfigPath matchLabel matchLabelValue ns timeoutSeconds x msg hclient h
    subst hm
    exact ⟨rfl, by decide⟩

/-- C14 witness: the timeout of `WaitForStatefulSetReady` on an open channel
without events. -/
theorem timeout_message_fixed_witness :
    (WaitForStatefulSetReady (clusterOf ⟨[], none⟩ []) "kubeconfig" (statefulSetWith 3 0 0) 2
        false).outcome
        = .returned (false, some "The StatefulSet was not ready within the timeout period.") ∧
      occursIn "StatefulSet".toList
        "The StatefulSet was not ready within the timeout period.".toList = true :=
  ⟨by decide,
    (timeout_message_fixed.2.2.1 (clusterOf ⟨[], none⟩ []) "kubeconfig" (statefulSetWith 3 0 0) 2
      false false "The StatefulSet was not ready within the timeout period." rfl
      (by decide)).2⟩

/-! ## The first item of an empty list -/

/-- C17: when the list request that follows a satisfying event succeeds with no
item, each of the three locators evaluates `&spec.Items[0]` all the same and
panics with an index out of range; it neither reports an error nor keeps waiting. -/
theorem ReturnObject_empty_list_panics :
    (ReturnDeploymentObject
        (clusterOf ⟨eventsOf [(1000000000, deploymentWith 2 0)], none⟩ [])
        "kubeconfig" "app.kubernetes.io/name" "argocd-server" "argocd" 30).outcome
        = .panicked ∧
      (ReturnPodObject
        (clusterOf ⟨eventsOf [(1000000000, podIn "Pending")], none⟩ [])
        "kubeconfig" "app.kubernetes.io/name" "vault" "vault" 30).outcome = .panicked ∧
      (ReturnPodObject
        (clusterOf ⟨eventsOf [(1000000000, podIn "Running")], none⟩ [])
        "kubeconfig" "app.kubernetes.io/name" "vault" "vault" 30).outcome = .panicked ∧
      (ReturnStatefulSetObject
        (clusterOf ⟨eventsOf [(1000000000, statefulSetWith 3 0 1)], none⟩ [])
        "kubeconfig" "app.kubernetes.io/name" "vault" "vault" 30).outcome = .panicked ∧
      (ReturnPodObject
        (clusterOf ⟨eventsOf [(1000000000, podIn "Running")], none⟩ [])
        "kubeconfig" "app.kubernetes.io/name" "vault" "vault" 30).calls
        = [.watch .pods "vault" { LabelSelector := "app.kubernetes.io/name=vault" },
           .list .pods "vault" { LabelSelector := "app.kubernetes.io/name=vault" }] := by
  refine ⟨by decide, by decide, by decide, by decide, by decide⟩

/-! ## Secrets -/

theorem lookup_filter_ne {β : Type} (m : List (String × β)) (key k : String) (h : k ≠ key) :
    (m.filter fun e => !(e.1 == key)).lookup k = m.lookup k := by
  induction m with
  | nil => rfl
  | cons e rest ih =>
    obtain ⟨a, b⟩ := e
    by_cases hak : a = key
    · subst hak
      have hka : (k == a) = false := by simpa using h
      simp [List.filter_cons, List.lookup_cons, hka, ih]
    · have : (a == key) = false := by simpa using hak
      simp only [List.filter_cons, this, Bool.not_false, if_true, List.lookup_cons, ih]

theorem lookup_mapSet {β : Type} (m : List (String × β)) (key : String) (value : β)
    (k : String) :
    (mapSet m key value).lookup k = if k = key then some value else m.lookup k := by
  unfold mapSet
  by_cases h : k = key
  · subst h; simp [List.lookup_cons]
  · have hk : (k == key) = false := by simpa using h
    simp only [List.lookup_cons, hk, h, if_false]
    exact lookup_filter_ne m key k h

theorem lookup_foldl_mapSet (data : List (String × List Nat)) :
    (data.map Prod.fst).Nodup → ∀ (acc : List (String × GoString)) (k : String),
      (data.foldl (fun parsed kv => mapSet parsed kv.1 (GoString.ofBytes kv.2)) acc).lookup k
        = match data.lookup k with
          | some v => some (GoString.ofBytes v)
          | none => acc.lookup k := by
  induction data with
  | nil => intro _ acc k; rfl
  | cons e rest ih =>
    intro hnd acc k
    obtain ⟨a, b⟩ := e
    simp only [List.map_cons, List.nodup_cons] at hnd
    simp only [List.foldl_cons]
    rw [ih hnd.2, lookup_mapSet]
    by_cases h : k = a
    · subst h
      have hnone : rest.lookup k = none := by
        rw [List.lookup_eq_none_iff]
        intro p hp
        have hne : k ≠ p.1 := by
          intro hkp
          apply hnd.1
          rw [hkp]
          exact List.mem_map_of_mem _ hp
        simpa using hne
      simp [List.lookup_cons, hnone]
    · have hk : (k == a) = false := by simpa using h
      simp only [List.lookup_cons, hk, h, if_false]

theorem lookup_foldl_mapSet_none (k : String) (data : List (String × List Nat)) :
    data.lookup k = none → ∀ (acc : List (String × GoString)),
      (data.foldl (fun parsed kv => mapSet parsed kv.1 (GoString.ofBytes kv.2)) acc).lookup k
        = acc.lookup k := by
  induction data with
  | nil => intro _ acc; rfl
  | cons e rest ih =>
    intro h acc
    obtain ⟨a, b⟩ := e
    by_cases hka : k = a
    · subst hka; simp [List.lookup_cons] at h
    · have hk : (k == a) = false := by simpa using hka
      simp only [List.lookup_cons, hk] at h
      simp only [List.foldl_cons]
      rw [ih h, lookup_mapSet, if_neg hka]

/-- C18: `ReadSecretV2` returns a non-nil error exactly when the client cannot be
built; when the secret lookup fails it returns an empty non-nil map and a nil
error; when the lookup succeeds it returns, with a nil error, a map that holds
under each key of the secret's data the stored bytes as a string, and nothing
under any other key. `readVaultTokenFromSecret` returns the empty string when the
client cannot be built, when the lookup fails and when the secret has no
`root-token` key. -/
theorem ReadSecretV2_results (env : SecretEnv) (kubeConfigPath ns secretName : String) :
    ((ReadSecretV2 env kubeConfigPath ns secretName).err ≠ none ↔
      env.GetClientSet kubeConfigPath ≠ none) ∧
    (∀ e, env.GetClientSet kubeConfigPath = none → env.getSecret ns secretName = .error e →
      (ReadSecretV2 env kubeConfigPath ns secretName).data = some [] ∧
        (ReadSecretV2 env kubeConfigPath ns secretName).err = none) ∧
    (∀ secret, env.GetClientSet kubeConfigPath = none →
      env.getSecret ns secretName = .ok secret → (secret.Data.map Prod.fst).Nodup →
      (ReadSecretV2 env kubeConfigPath ns secretName).err = none ∧
        ∃ m, (ReadSecretV2 env kubeConfigPath ns secretName).data = some m ∧
          ∀ k, m.lookup k = (secret.Data.lookup k).map GoString.ofBytes) ∧
    ((env.GetClientSet kubeConfigPath ≠ none ∨
        (∃ e, env.getSecret ns secretName = .error e) ∨
        (∃ secret, env.getSecret ns secretName = .ok secret ∧
          secret.Data.lookup "root-token" = none)) →
      readVaultTokenFromSecret env kubeConfigPath ns secretName = GoString.empty) := by
  refine ⟨?_, ?_, ?_, ?_⟩
  · unfold ReadSecretV2
    cases hcl : env.GetClientSet kubeConfigPath with
    | some err => simp
    | none =>
      cases hget : env.getSecret ns secretName with
      | error err => simp
      | ok secret => simp
  · intro e hcl hget
    simp [ReadSecretV2, hcl, hget]
  · intro secret hcl hget hnd
    simp only [ReadSecretV2, hcl, hget]
    refine ⟨trivial, _, rfl, ?_⟩
    intro k
    rw [lookup_foldl_mapSet secret.Data hnd [] k]
    cases secret.Data.lookup k <;> rfl
  · intro h
    unfold readVaultTokenFromSecret ReadSecretV2
    cases hcl : env.GetClientSet kubeConfigPath with
    | some err => rfl
    | none =>
      cases hget : env.getSecret ns secretName with
      | error err => rfl
      | ok secret =>
        rcases h with h | ⟨e, h⟩ | ⟨secret2, h, hkey⟩
        · exact absurd hcl h
        · rw [hget] at h; cases h
        · rw [hget] at h
          cases h
          simp only
          rw [lookup_foldl_mapSet_none "root-token" secret.Data hkey []]
          rfl

/-- C18 witness: a secret with the keys `root-token` and `unseal-key` is read back
under both keys, and the token is empty when the secret cannot be fetched. -/
theorem ReadSecretV2_results_witness :
    ((ReadSecretV2 (secretEnvOf none (.ok ⟨[("root-token", [104, 118, 115]),
        ("unseal-key", [49, 50])]⟩)) "kubeconfig" "vault" "vault-unseal-secret").err = none ∧
      ∃ m, (ReadSecretV2 (secretEnvOf none (.ok ⟨[("root-token", [104, 118, 115]),
          ("unseal-key", [49, 50])]⟩)) "kubeconfig" "vault" "vault-unseal-secret").data
          = some m ∧
        ∀ k, m.lookup k = ((Secret.mk [("root-token", [104, 118, 115]),
          ("unseal-key", [49, 50])]).Data.lookup k).map GoString.ofBytes) ∧
    readVaultTokenFromSecret (secretEnvOf none (.error "secrets not found")) "kubeconfig"
      "vault" "vault-unseal-secret" = GoString.empty :=
  ⟨(ReadSecretV2_results (secretEnvOf none (.ok ⟨[("root-token", [104, 118, 115]),
      ("unseal-key", [49, 50])]⟩)) "kubeconfig" "vault" "vault-unseal-secret").2.2.1
      ⟨[("root-token", [104, 118, 115]), ("unseal-key", [49, 50])]⟩ rfl rfl (by decide),
    (ReadSecretV2_results (secretEnvOf none (.error "secrets not found")) "kubeconfig"
      "vault" "vault-unseal-secret").2.2.2 (Or.inr (Or.inl ⟨_, rfl⟩))⟩

/-! ## The clean command -/

theorem runActions_trace_length (env : CleanEnv) :
    ∀ (actions : List CleanAction) (trace : List CleanStep),
      trace.length ≤ (runActions env actions trace).2.length ∧
        (actions ≠ [] → trace.length < (runActions env actions trace).2.length) := by
  intro actions
  induction actions with
  | nil => intro trace; simp [runActions]
  | cons a rest ih =>
    intro trace
    have h := (ih (trace ++ [a.step])).1
    simp only [List.length_append, List.length_singleton] at h
    unfold runActions
    split
    · simp
    · exact ⟨by omega, fun _ => by omega⟩

theorem runActions_trace_mem (env : CleanEnv) :
    ∀ (actions : List CleanAction) (trace : List CleanStep) (s : CleanStep),
      s ∈ (runActions env actions trace).2 → s ∈ trace ∨ s ∈ actions.map (·.step) := by
  intro actions
  induction actions with
  | nil => intro trace s h; exact Or.inl (by simpa [runActions] using h)
  | cons a rest ih =>
    intro trace s h
    unfold runActions at h
    split at h
    · simp only [List.mem_append, List.mem_singleton] at h
      rcases h with h | h
      · exact Or.inl h
      · exact Or.inr (by simp [h])
    · rcases ih _ s h with h1 | h1
      · simp only [List.mem_append, List.mem_singleton] at h1
        rcases h1 with h1 | h1
        · exact Or.inl h1
        · exact Or.inr (by simp [h1])
      · exact Or.inr (by simp only [List.map_cons, List.mem_cons]; exact Or.inr h1)

theorem runActions_first (env : CleanEnv) (a : CleanAction) (rest : List CleanAction) :
    a.step ∈ (runActions env (a :: rest) []).2 := by
  have hmem : ∀ (actions : List CleanAction) (trace : List CleanStep) (s : CleanStep),
      s ∈ trace → s ∈ (runActions env actions trace).2 := by
    intro actions
    induction actions with
    | nil => intro trace s h; simpa [runActions] using h
    | cons b more ih =>
      intro trace s h
      unfold runActions
      split
      · simp [h]
      · exact ih _ s (by simp [h])
  unfold runActions
  split
  · simp
  · exact hmem _ _ _ (by simp)

theorem runActions_ok (env : CleanEnv) (hok : ∀ h s, env.step h s = none) :
    ∀ (actions : List CleanAction) (trace : List CleanStep),
      (runActions env actions trace).1 = none := by
  intro actions
  induction actions with
  | nil => intro trace; rfl
  | cons a rest ih =>
    intro trace
    unfold runActions
    rw [hok]
    exact ih _

/-- C15: the clean command returns an error without having run any step (no call
of `DestroyBucketsInUse`, no removal) exactly when `--destroy-buckets` is set and
`--destroy-confirm` is not; when no step fails, that is its only error; otherwise
`DestroyBucketsInUse` is its first call. Every call of `DestroyBucketsInUse` is
made with dry-run off and with the destroy argument true exactly when both
`--destroy-buckets` and `--destroy-confirm` are set. -/
theorem clean_destroy_guard (env : CleanEnv) (flags : CleanFlags) :
    (((cleanRunE env flags).1 ≠ none ∧ (cleanRunE env flags).2 = []) ↔
      (flags.destroyBuckets = true ∧ flags.destroyConfirm = false)) ∧
    ((∀ h s, env.step h s = none) →
      ((cleanRunE env flags).1 ≠ none ↔
        (flags.destroyBuckets = true ∧ flags.destroyConfirm = false))) ∧
    (¬ (flags.destroyBuckets = true ∧ flags.destroyConfirm = false) →
      CleanStep.destroyBucketsInUse false (flags.destroyBuckets && flags.destroyConfirm)
        ∈ (cleanRunE env flags).2) ∧
    (∀ d x, CleanStep.destroyBucketsInUse d x ∈ (cleanRunE env flags).2 →
      d = false ∧ (x = true ↔ (flags.destroyBuckets = true ∧ flags.destroyConfirm = true))) := by
  by_cases hg : flags.destroyBuckets = true ∧ flags.destroyConfirm = false
  · have hrun : cleanRunE env flags = (some (.plain
        ("this process will fully delete cloud buckets, and we would like you to " ++
        "confirm the deletion providing the --destroy-confirm when calling the clean command")),
        []) := by
      simp [cleanRunE, hg.1, hg.2]
    rw [hrun]
    refine ⟨by simp [hg], fun _ => by simp [hg], fun h => absurd hg h, ?_⟩
    intro d x h
    simp at h
  · have hcond : (flags.destroyBuckets && !flags.destroyConfirm) = false := by
      cases hb : flags.destroyBuckets <;> cases hc : flags.destroyConfirm <;> simp_all
    have hrun : cleanRunE env flags
        = runActions env (cleanActions env.config env.logsLocation flags) [] := by
      simp [cleanRunE, hcond]
    rw [hrun]
    have hcons : ∃ rest, cleanActions env.config env.logsLocation flags
        = ⟨.destroyBucketsInUse false (flags.destroyBuckets && flags.destroyConfirm),
            some .plain⟩ :: rest := ⟨_, rfl⟩
    obtain ⟨rest, hrest⟩ := hcons
    refine ⟨?_, ?_, ?_, ?_⟩
    · constructor
      · rintro ⟨_, hnil⟩
        have hlen := (runActions_trace_length env
          (cleanActions env.config env.logsLocation flags) []).2 (by rw [hrest]; simp)
        rw [hnil] at hlen
        simp at hlen
      · intro h; exact absurd h hg
    · intro hok
      rw [runActions_ok env hok]
      simp [hg]
    · intro _
      rw [hrest]
      exact runActions_first env _ rest
    · intro d x h
      rcases runActions_trace_mem env _ [] _ h with h1 | h1
      · simp at h1
      · have hx : d = false ∧ x = (flags.destroyBuckets && flags.destroyConfirm) := by
          cases hl : flags.rmLogs <;> cases hp : flags.preserveTools <;>
            simp [cleanActions, hl, hp] at h1 <;> exact h1
        refine ⟨hx.1, ?_⟩
        rw [hx.2]
        simp

/-- C15 witness: with `--destroy-buckets` alone the command fails before any step;
with `--destroy-confirm` as well it runs to the end and its first call asks for
the buckets to be destroyed. -/
theorem clean_destroy_guard_witness :
    ((cleanRunE (cleanEnvOf homeConfig) ⟨false, true, false, false⟩).1 ≠ none ∧
      (cleanRunE (cleanEnvOf homeConfig) ⟨false, true, false, false⟩).2 = []) ∧
    CleanStep.destroyBucketsInUse false true
      ∈ (cleanRunE (cleanEnvOf homeConfig) ⟨false, true, true, false⟩).2 :=
  ⟨(clean_destroy_guard (cleanEnvOf homeConfig) ⟨false, true, false, false⟩).1.mpr ⟨rfl, rfl⟩,
    (clean_destroy_guard (cleanEnvOf homeConfig) ⟨false, true, true, false⟩).2.2.1
      (by decide)⟩

/-! ## Token substitution -/

theorem beginsWith_append_self {α : Type} [DecidableEq α] (p s : List α) :
    beginsWith (p ++ s) p = true := by
  induction p with
  | nil => cases s <;> rfl
  | cons c cs ih => simp [beginsWith, ih]

theorem eq_append_of_beginsWith {α : Type} [DecidableEq α] :
    ∀ (l p : List α), beginsWith l p = true → ∃ t, l = p ++ t := by
  intro l p
  induction p generalizing l with
  | nil => intro _; exact ⟨l, rfl⟩
  | cons c cs ih =>
    intro h
    cases l with
    | nil => simp [beginsWith] at h
    | cons x xs =>
      simp only [beginsWith, Bool.and_eq_true, decide_eq_true_eq] at h
      obtain ⟨t, ht⟩ := ih xs h.2
      exact ⟨t, by rw [h.1, ht]; rfl⟩

/-- The text up to the first `>` of a placeholder followed by anything is the
placeholder without its last character. -/
theorem takeWhile_shaped (body rest : List Char) (hb : ∀ c ∈ body, c ≠ '<' ∧ c ≠ '>') :
    (('<' :: (body ++ ['>'])) ++ rest).takeWhile (fun c => decide (c ≠ '>')) = '<' :: body := by
  have h1 : ('<' :: (body ++ ['>'])) ++ rest = ('<' :: body) ++ ('>' :: rest) := by simp
  rw [h1, List.takeWhile_append_of_pos]
  · simp
  · intro a ha
    simp only [List.mem_cons] at ha
    rcases ha with ha | ha
    · subst ha; decide
    · simpa using (hb a ha).2

theorem beginsWith_other {p q : List Char} (hp : Shaped p) (hq : Shaped q) (hne : p ≠ q)
    (rest : List Char) : beginsWith (q ++ rest) p = false := by
  cases h : beginsWith (q ++ rest) p with
  | false => rfl
  | true =>
    exfalso
    obtain ⟨t, ht⟩ := eq_append_of_beginsWith _ _ h
    obtain ⟨bp, hbp, hp2⟩ := hp
    obtain ⟨bq, hbq, hq2⟩ := hq
    have h1 := takeWhile_shaped bq rest hq2
    have h2 := takeWhile_shaped bp t hp2
    rw [← hbq, ht, hbp, h2] at h1
    apply hne
    rw [hbp, hbq]
    simp only [List.cons.injEq, true_and] at h1
    rw [h1]

theorem replaceFrom_skip {α : Type} [DecidableEq α] (old new : List α) :
    ∀ (pre s : List α), replaceFrom old new pre.length (pre ++ s) = replaceFrom old new 0 s := by
  intro pre
  induction pre with
  | nil => intro s; rfl
  | cons c cs ih =>
    intro s
    simp only [List.length_cons, List.cons_append, replaceFrom]
    exact ih s

theorem replaceFrom_match {α : Type} [DecidableEq α] (c : α) (cs new s : List α) :
    replaceFrom (c :: cs) new 0 ((c :: cs) ++ s) = new ++ replaceFrom (c :: cs) new 0 s := by
  have hb := beginsWith_append_self (c :: cs) s
  simp only [List.cons_append] at hb
  rw [List.cons_append, replaceFrom, if_pos hb]
  simp only [List.length_cons, Nat.add_sub_cancel]
  rw [replaceFrom_skip]

theorem replaceFrom_plain (p new : List Char) :
    ∀ (l s : List Char), (∀ c ∈ l, c ≠ '<') →
      replaceFrom ('<' :: p) new 0 (l ++ s) = l ++ replaceFrom ('<' :: p) new 0 s := by
  intro l
  induction l with
  | nil => intro s _; rfl
  | cons c cs ih =>
    intro s h
    have hc : c ≠ '<' := h c (List.mem_cons_self _ _)
    have hb : beginsWith (c :: (cs ++ s)) ('<' :: p) = false := by
      simp [beginsWith, hc]
    rw [List.cons_append, replaceFrom, if_neg (by rw [hb]; exact Bool.false_ne_true),
      ih s (fun x hx => h x (List.mem_cons_of_mem _ hx)), List.cons_append]

theorem replaceFrom_other {p q : List Char} (hp : Shaped p) (hq : Shaped q) (hne : p ≠ q)
    (new s : List Char) :
    replaceFrom p new 0 (q ++ s) = q ++ replaceFrom p new 0 s := by
  have hb := beginsWith_other hp hq hne s
  obtain ⟨bp, hbp, _⟩ := hp
  obtain ⟨bq, hbq, hq2⟩ := hq
  subst hbp
  subst hbq
  rw [List.cons_append] at hb ⊢
  rw [replaceFrom, if_neg (by rw [hb]; exact Bool.false_ne_true)]
  have h := replaceFrom_plain (bp ++ ['>']) new (bq ++ ['>']) s (by
    intro c hc
    simp only [List.mem_append, List.mem_singleton] at hc
    rcases hc with hc | hc
    · exact (hq2 c hc).1
    · subst hc; decide)
  rw [h, List.cons_append]


theorem renderPieces_append (xs ys : List Piece) :
    renderPieces (xs ++ ys) = renderPieces xs ++ renderPieces ys := by
  induction xs with
  | nil => rfl
  | cons x rest ih =>
    cases x with
    | char c => simp [renderPieces, ih]
    | token name => simp [renderPieces, ih]

theorem renderPieces_chars (v : List Char) : renderPieces (v.map Piece.char) = v := by
  induction v with
  | nil => rfl
  | cons c cs ih => simp [renderPieces, ih]

/-- One replacement on a well-formed template replaces the placeholder where it
stands as a piece, and nothing else. -/
theorem replaceAll_renderPieces {p : List Char} (hp : Shaped p) (v : List Char)
    (names : List (List Char)) (hnames : ∀ q ∈ names, Shaped q) :
    ∀ (ps : List Piece), (∀ x ∈ ps, x.valid names = true) →
      replaceAll p v (renderPieces ps) = renderPieces (substPieces p v ps) := by
  obtain ⟨bp, hbp, hp2⟩ := hp
  have hp : Shaped p := ⟨bp, hbp, hp2⟩
  have hunfold : ∀ s, replaceAll p v s = replaceFrom p v 0 s := by
    intro s; rw [hbp]; rfl
  intro ps hvalid
  rw [hunfold]
  induction ps with
  | nil => rfl
  | cons x rest ih =>
    have hrest := ih (fun y hy => hvalid y (List.mem_cons_of_mem _ hy))
    have hx := hvalid x (List.mem_cons_self _ _)
    cases x with
    | char c =>
      have hc : c ≠ '<' := by simpa [Piece.valid] using hx
      have h := replaceFrom_plain (bp ++ ['>']) v [c] (renderPieces rest) (by simpa using hc)
      rw [← hbp] at h
      simp only [renderPieces, substPieces]
      rw [← hrest]
      exact h
    | token name =>
      have hq : Shaped name := hnames name (by simpa [Piece.valid] using hx)
      simp only [renderPieces, substPieces]
      by_cases hnp : name = p
      · subst hnp
        rw [if_pos rfl, renderPieces_append, renderPieces_chars, ← hrest]
        rw [hbp]
        exact replaceFrom_match _ _ _ _
      · rw [if_neg hnp]
        simp only [renderPieces]
        rw [← hrest]
        exact replaceFrom_other hp hq (fun h => hnp h.symm) v _

theorem substPieces_valid (p v : List Char) (hv : ∀ c ∈ v, c ≠ '<') (names : List (List Char)) :
    ∀ (ps : List Piece), (∀ x ∈ ps, x.valid names = true) →
      ∀ x ∈ substPieces p v ps, x.valid (names.filter fun q => decide (q ≠ p)) = true := by
  intro ps
  induction ps with
  | nil => intro _ x hx; simp [substPieces] at hx
  | cons y rest ih =>
    intro hvalid x hx
    have hrest := ih (fun z hz => hvalid z (List.mem_cons_of_mem _ hz))
    have hy := hvalid y (List.mem_cons_self _ _)
    cases y with
    | char c =>
      simp only [substPieces, List.mem_cons] at hx
      rcases hx with hx | hx
      · subst hx; simpa [Piece.valid] using hy
      · exact hrest x hx
    | token name =>
      simp only [substPieces] at hx
      by_cases hnp : name = p
      · rw [if_pos hnp] at hx
        simp only [List.mem_append, List.mem_map] at hx
        rcases hx with ⟨c, hc, hxc⟩ | hx
        · subst hxc; simpa [Piece.valid] using hv c hc
        · exact hrest x hx
      · rw [if_neg hnp] at hx
        simp only [List.mem_cons] at hx
        rcases hx with hx | hx
        · subst hx
          have : name ∈ names := by simpa [Piece.valid] using hy
          simp [Piece.valid, this, hnp]
        · exact hrest x hx

/-- After the whole chain of replacements a well-formed template is a text made
of the placeholders that the chain does not replace and of characters other than `<`. -/
theorem applyReplacements_renderPieces :
    ∀ (rs : List (String × String)) (names : List (List Char)) (ps : List Piece),
      (∀ r ∈ rs, Shaped r.1.toList) → (∀ r ∈ rs, ∀ c ∈ r.2.toList, c ≠ '<') →
      (∀ q ∈ names, Shaped q) → (∀ x ∈ ps, x.valid names = true) →
      ∃ qs, applyReplacements rs (renderPieces ps) = renderPieces qs ∧
        ∀ x ∈ qs, x.valid (names.filter fun q => decide (q ∉ rs.map fun r => r.1.toList)) = true := by
  intro rs
  induction rs with
  | nil =>
    intro names ps _ _ _ hvalid
    exact ⟨ps, rfl, by simpa using hvalid⟩
  | cons r rest ih =>
    intro names ps hshaped hvalues hnames hvalid
    have hstep := replaceAll_renderPieces (hshaped r (List.mem_cons_self _ _)) r.2.toList
      names hnames ps hvalid
    have hvalid2 := substPieces_valid r.1.toList r.2.toList
      (hvalues r (List.mem_cons_self _ _)) names ps hvalid
    obtain ⟨qs, hqs, hq⟩ := ih (names.filter fun q => decide (q ≠ r.1.toList))
      (substPieces r.1.toList r.2.toList ps)
      (fun x hx => hshaped x (List.mem_cons_of_mem _ hx))
      (fun x hx => hvalues x (List.mem_cons_of_mem _ hx))
      (fun q hq => hnames q (List.mem_filter.mp hq).1) hvalid2
    refine ⟨qs, ?_, ?_⟩
    · simp only [applyReplacements, List.foldl_cons] at hqs ⊢
      rw [hstep]
      exact hqs
    · intro x hx
      have h := hq x hx
      cases x with
      | char c => simpa [Piece.valid] using h
      | token name =>
        simp only [Piece.valid, decide_eq_true_eq, List.mem_filter, List.mem_map,
          List.mem_cons] at h ⊢
        refine ⟨h.1.1, ?_⟩
        rintro ⟨a, ha | ha, hname⟩
        · subst ha; exact h.1.2 hname.symm
        · exact h.2 ⟨a, ha, hname⟩

/-- A text made of characters other than `<` only holds no `<`. -/
theorem renderPieces_no_lt (qs : List Piece) (h : ∀ x ∈ qs, x.valid [] = true) :
    '<' ∉ renderPieces qs := by
  induction qs with
  | nil => simp [renderPieces]
  | cons x rest ih =>
    have hx := h x (List.mem_cons_self _ _)
    have hrest := ih (fun y hy => h y (List.mem_cons_of_mem _ hy))
    cases x with
    | char c =>
      have hc : c ≠ '<' := by simpa [Piece.valid] using hx
      simp only [renderPieces, List.mem_cons, not_or]
      exact ⟨fun h => hc h.symm, hrest⟩
    | token name => simp [Piece.valid] at hx

theorem shaped_of_isPlaceholder (p : List Char) (h : isPlaceholder p = true) : Shaped p := by
  simp only [isPlaceholder, Bool.and_eq_true, decide_eq_true_eq, List.all_eq_true] at h
  exact ⟨p.tail.dropLast, h.1, fun c hc => h.2 c hc⟩

theorem mem_of_occursIn {α : Type} [DecidableEq α] (pat : List α) :
    ∀ (l : List α), occursIn pat l = true → ∀ c ∈ pat, c ∈ l := by
  intro l
  induction l with
  | nil =>
    intro h c hc
    obtain ⟨t, ht⟩ := eq_append_of_beginsWith _ _ (by simpa [occursIn] using h)
    have : pat = [] := (List.append_eq_nil.mp ht.symm).1
    rw [this] at hc
    exact absurd hc (List.not_mem_nil _)
  | cons x xs ih =>
    intro h c hc
    simp only [occursIn, Bool.or_eq_true] at h
    rcases h with h | h
    · obtain ⟨t, ht⟩ := eq_append_of_beginsWith _ _ h
      rw [ht]
      exact List.mem_append_left _ hc
    · exact List.mem_cons_of_mem _ (ih h c hc)

theorem gitopsReplacements_placeholders (tokens : GitOpsDirectoryValues) :
    (gitopsReplacements tokens).map Prod.fst = gitopsPlaceholders := rfl

theorem gitopsPlaceholders_shaped : ∀ p ∈ gitopsPlaceholders, isPlaceholder p.toList = true := by
  decide

theorem gitopsReplacements_values (tokens : GitOpsDirectoryValues)
    (hvalues : ∀ v ∈ tokens.values, '<' ∉ v.toList) :
    ∀ r ∈ gitopsReplacements tokens, ∀ c ∈ r.2.toList, c ≠ '<' := by
  have hdomain : '<' ∉ tokens.DomainName.toList :=
    hvalues _ (by simp [GitOpsDirectoryValues.values])
  have hurl : ∀ (pre : String), '<' ∉ pre.toList → '<' ∉ (pre ++ tokens.DomainName).toList := by
    intro pre hpre
    rw [String.toList, String.data_append, List.mem_append, not_or]
    exact ⟨hpre, hdomain⟩
  have hall : ∀ r ∈ gitopsReplacements tokens, '<' ∉ r.2.toList := by
    intro r hr
    simp only [gitopsReplacements, List.mem_cons, List.mem_singleton, List.not_mem_nil,
      or_false] at hr
    rcases hr with hr | hr | hr | hr | hr | hr | hr | hr | hr | hr | hr | hr | hr | hr | hr |
      hr | hr | hr | hr | hr | hr | hr | hr | hr | hr | hr | hr | hr | hr | hr | hr | hr | hr |
      hr | hr | hr | hr | hr | hr | hr <;> subst hr <;>
      first
        | exact hurl _ (by decide)
        | exact hvalues _ (by simp [GitOpsDirectoryValues.values])
  intro r hr c hc hlt
  exact hall r hr (hlt ▸ hc)

/-- C16, as stated, fails: no token value holds a `<` and the runner namespace is
empty; the file content `<CLUSTER_<GIT_RUNNER_NS>NAME>` is written back as
`<CLUSTER_NAME>`, a placeholder that the function translates. -/
theorem detokenizeCivoGitops_leaves_placeholder :
    (∀ v ∈ exampleTokens.values, '<' ∉ v.toList) ∧
      (detokenizeCivoGitops exampleTokens
        ⟨none, false, true, .ok "<CLUSTER_<GIT_RUNNER_NS>NAME>".toList, none⟩).written
        = some "<CLUSTER_NAME>".toList ∧
      "<CLUSTER_NAME>" ∈ gitopsPlaceholders ∧
      occursIn "<CLUSTER_NAME>".toList "<CLUSTER_NAME>".toList = true := by
  refine ⟨by decide, by decide, by decide, by decide⟩

/-- C16, amended: when the file content is a well-formed template, that is a
sequence of characters other than `<` and of placeholders that the function
translates, and no token value holds a `<`, the content written back holds no `<`
and so no occurrence of any placeholder that the function translates. -/
theorem detokenizeCivoGitops_no_placeholder (tokens : GitOpsDirectoryValues) (e : WalkEntry)
    (ps : List Piece) (out : List Char)
    (hvalues : ∀ v ∈ tokens.values, '<' ∉ v.toList)
    (hread : e.read = .ok (renderPieces ps))
    (hps : ∀ x ∈ ps, x.valid (gitopsPlaceholders.map String.toList) = true)
    (hout : (detokenizeCivoGitops tokens e).written = some out) :
    '<' ∉ out ∧ ∀ p ∈ gitopsPlaceholders, occursIn p.toList out = false := by
  have hshaped : ∀ r ∈ gitopsReplacements tokens, Shaped r.1.toList := by
    intro r hr
    apply shaped_of_isPlaceholder
    apply gitopsPlaceholders_shaped
    rw [← gitopsReplacements_placeholders tokens]
    exact List.mem_map_of_mem _ hr
  have hnames : ∀ q ∈ gitopsPlaceholders.map String.toList, Shaped q := by
    intro q hq
    obtain ⟨p, hp, hpq⟩ := List.mem_map.mp hq
    rw [← hpq]
    exact shaped_of_isPlaceholder _ (gitopsPlaceholders_shaped p hp)
  obtain ⟨qs, hqs, hvalid⟩ := applyReplacements_renderPieces (gitopsReplacements tokens)
    (gitopsPlaceholders.map String.toList) ps hshaped
    (gitopsReplacements_values tokens hvalues) hnames hps
  have hnone : (gitopsPlaceholders.map String.toList).filter
      (fun q => decide (q ∉ (gitopsReplacements tokens).map fun r => r.1.toList)) = [] := by
    rw [List.filter_eq_nil_iff]
    intro q hq
    have : q ∈ (gitopsReplacements tokens).map fun r => r.1.toList := by
      rw [← gitopsReplacements_placeholders tokens, List.map_map] at hq
      exact hq
    simpa using this
  rw [hnone] at hvalid
  have hwritten : out = applyReplacements (gitopsReplacements tokens) (renderPieces ps) := by
    unfold detokenizeCivoGitops at hout
    rw [hread] at hout
    cases herr : e.err with
    | some err => rw [herr] at hout; cases hout
    | none =>
      rw [herr] at hout
      cases hdir : e.isDir with
      | true => rw [hdir] at hout; cases hout
      | false =>
        rw [hdir] at hout
        cases hm : e.matched with
        | false => rw [hm] at hout; cases hout
        | true =>
          rw [hm] at hout
          simp only [Bool.false_eq_true, if_false, if_true, Option.some.injEq] at hout
          exact hout.symm
  have hlt : '<' ∉ out := by
    rw [hwritten, hqs]
    exact renderPieces_no_lt qs hvalid
  refine ⟨hlt, ?_⟩
  intro p hp
  cases hocc : occursIn p.toList out with
  | false => rfl
  | true =>
    exfalso
    apply hlt
    apply mem_of_occursIn p.toList out hocc
    obtain ⟨body, hbody, _⟩ := shaped_of_isPlaceholder _ (gitopsPlaceholders_shaped p hp)
    rw [hbody]
    exact List.mem_cons_self _ _

/-- C16 witness: the template `<CLUSTER_NAME>.<DOMAIN_NAME>` is written back as
`kubefirst.example.com`. -/
theorem detokenizeCivoGitops_no_placeholder_witness :
    (detokenizeCivoGitops exampleTokens
        ⟨none, false, true, .ok "<CLUSTER_NAME>.<DOMAIN_NAME>".toList, none⟩).written
        = some "kubefirst.example.com".toList ∧
      '<' ∉ "kubefirst.example.com".toList ∧
      ∀ p ∈ gitopsPlaceholders, occursIn p.toList "kubefirst.example.com".toList = false :=
  ⟨by decide,
    detokenizeCivoGitops_no_placeholder exampleTokens
      ⟨none, false, true, .ok "<CLUSTER_NAME>.<DOMAIN_NAME>".toList, none⟩
      [.token "<CLUSTER_NAME>".toList, .char '.', .token "<DOMAIN_NAME>".toList]
      "kubefirst.example.com".toList (by decide) (congrArg Except.ok (by decide)) (by decide)
      (by decide)⟩

end Kubefirst
